import Mathlib

/-!
Verification of the POV report-generation backend (FastAPI + Supabase + OpenAI).

The development shallowly embeds the parts of the backend that the spec's
claims are about:

* `database.py` — the persistence layer, modelled as pure transformers over a
  `DB` value holding the four tables the pipeline touches
  (`pov_reports`, `pov_outcome_titles`, `pov_outcomes`, `pov_summary`).
  Supabase inserts append rows, `.delete().eq(...)` filters rows out,
  `.update(...).eq(...)` maps over rows; a raised exception is an
  `Except.error` (the Python code always checks before it mutates, so an
  error leaves the store untouched).
* `llm.py` — the completion-service adapter `llm_call` and the three prompt
  builders.  `llm_call` fires one request per instruction and collects the
  answers with `asyncio.gather`, which preserves order, so it is embedded as
  `List.map` over an abstract completion function.
* `pov_function.py` — context gathering, title generation/validation and the
  detail fan-out of the full and the selective workflow.
* `main.py` — the status state machine of the three generation endpoints,
  with an explicit failure-injection parameter standing for "this step
  raised an exception".

Python strings are Lean `String`s; text that the code manipulates character
by character (the summary/takeaways split of `save_summary_and_takeaways`)
is handled on `List Char` (`Str` below), which is what a Python `str`
behaves as.
-/

namespace POV

/-- Python strings, as character lists, for the character-level text
processing done by `save_summary_and_takeaways`. -/
abbrev Str := List Char

/-- Shorthand turning a Lean string literal into a `Str`. -/
def S (s : String) : Str := s.data

/-- The whitespace characters stripped by Python's `str.strip()` and matched
by the regex class `\s` (the code only ever meets ASCII whitespace, so the
Unicode extras of Python's definition are not modelled). -/
def isPySpace (c : Char) : Bool :=
  c = ' ' ∨ c = '\t' ∨ c = '\n' ∨ c = '\r' ∨ c = '\x0b' ∨ c = '\x0c'

/-- Python `str.strip()`: remove leading and trailing whitespace. -/
def pyStrip (s : Str) : Str :=
  ((s.dropWhile isPySpace).reverse.dropWhile isPySpace).reverse

/-- The `status` column of `pov_reports`.  The embedding uses an enumeration
for the four string values `"processing"`, `"titles_generated"`,
`"completed"` and `"failed"` that `main.py` writes. -/
inductive Status where
  | processing
  | titlesGenerated
  | completed
  | failed
deriving DecidableEq, Repr

/-- The descriptive request fields stored on a `pov_reports` row by
`create_pov_report` and read back by the Phase-2 endpoint. -/
structure ReportFields where
  vendor_name : String
  vendor_url : String
  vendor_services : String
  target_customer_name : String
  target_customer_url : String
  role_names : String
  linkedin_urls : String
  role_context : String
  additional_context : String
deriving DecidableEq, Repr

/-- The `context_data` JSON blob that `save_context_data` stores on the
report row.  Of its six entries only `background_context` is ever read back
(`generate_selected_outcomes_only` does
`stored_context["background_context"]`), so only that entry is modelled. -/
structure ContextData where
  background_context : String
deriving DecidableEq, Repr

/-- A `pov_reports` row (the columns the claims touch). -/
structure ReportRow where
  id : String
  user_id : String
  fields : ReportFields
  status : Status
  context_data : Option ContextData
deriving DecidableEq, Repr

/-- A `pov_outcome_titles` row. -/
structure TitleRow where
  report_id : String
  title_index : Nat
  title : String
  selected : Bool
deriving DecidableEq, Repr

/-- A `pov_outcomes` row. -/
structure OutcomeRow where
  report_id : String
  outcome_index : Nat
  title : String
  content : String
deriving DecidableEq, Repr

/-- A `pov_summary` row. -/
structure SummaryRow where
  report_id : String
  summary_content : Str
  takeaways_content : Str
deriving DecidableEq, Repr

/-- The structured store: the four tables the generation pipeline writes.
Supabase `insert` appends rows at the end of a table. -/
structure DB where
  reports : List ReportRow
  outcome_titles : List TitleRow
  outcomes : List OutcomeRow
  summaries : List SummaryRow
deriving DecidableEq, Repr

/-- The empty store. -/
def DB.empty : DB := ⟨[], [], [], []⟩

/-- `database.create_pov_report`: insert a new report row with
`status = "processing"`.  Supabase generates the row id; the embedding takes
it as a parameter. -/
def create_pov_report (rid uid : String) (f : ReportFields) (db : DB) : DB :=
  { db with reports := db.reports ++ [⟨rid, uid, f, .processing, none⟩] }

/-- `database.save_outcome_titles`: bulk-insert one row per title, with
`title_index` its zero-based position and `selected = False`. -/
def save_outcome_titles (rid : String) (titles : List String) (db : DB) : DB :=
  { db with
    outcome_titles :=
      db.outcome_titles ++
        titles.enum.map (fun p => ⟨rid, p.1, p.2, false⟩) }

/-- `database.save_outcome_details` (full workflow): bulk-insert one row per
outcome text, `outcome_index` its position and `title` the fixed placeholder
`f"Outcome {i+1}"`.  Note: this function only inserts — it does not delete
existing rows for the report first. -/
def save_outcome_details (rid : String) (outcomes : List String) (db : DB) : DB :=
  { db with
    outcomes :=
      db.outcomes ++
        outcomes.enum.map
          (fun p => ⟨rid, p.1, "Outcome " ++ Nat.repr (p.1 + 1), p.2⟩) }

/-- The `{'title_index': …, 'title': …, 'content': …}` dicts the Phase-2
endpoint hands to `save_selected_outcome_details`. -/
structure OutcomeInput where
  title_index : Nat
  title : String
  content : String
deriving DecidableEq, Repr

/-- `database.save_selected_outcome_details` (selective workflow): first
delete every existing `pov_outcomes` row of the report, then insert one row
per dict with `outcome_index` taken from the dict's `title_index`. -/
def save_selected_outcome_details (rid : String) (outcomes_data : List OutcomeInput)
    (db : DB) : DB :=
  { db with
    outcomes :=
      db.outcomes.filter (fun o => ¬ (o.report_id = rid)) ++
        outcomes_data.map (fun item => ⟨rid, item.title_index, item.title, item.content⟩) }

/-- `database.update_report_status`: set the status of every report row with
the given id. -/
def update_report_status (rid : String) (st : Status) (db : DB) : DB :=
  { db with
    reports := db.reports.map (fun r => if r.id = rid then { r with status := st } else r) }

/-- `database.save_context_data`: store the gathered context blob on the
report row. -/
def save_context_data (rid : String) (ctx : ContextData) (db : DB) : DB :=
  { db with
    reports := db.reports.map (fun r => if r.id = rid then { r with context_data := some ctx } else r) }

/-- `database.get_context_data`: verify the requesting user owns the report,
then return the stored context blob; raise when the report is missing or no
context was stored (`if not context_data`). -/
def get_context_data (rid uid : String) (db : DB) : Except String ContextData :=
  match db.reports.find? (fun r => r.id = rid ∧ r.user_id = uid) with
  | none => .error "Report not found or access denied"
  | some r =>
    match r.context_data with
    | none => .error "No context data found for this report"
    | some ctx => .ok ctx

/-- `database.update_selected_titles`: after an ownership check, reset
`selected` to `False` on every title row of the report, then set it to
`True` on each row whose `title_index` appears in `selected_indices`.  The
ownership check precedes every write, so the error case mutates nothing. -/
def update_selected_titles (rid uid : String) (selected_indices : List Nat)
    (db : DB) : Except String DB :=
  if db.reports.any (fun r => r.id = rid ∧ r.user_id = uid) then
    let reset := db.outcome_titles.map
      (fun t => if t.report_id = rid then { t with selected := false } else t)
    let updated := selected_indices.foldl
      (fun acc idx =>
        acc.map (fun t =>
          if t.report_id = rid ∧ t.title_index = idx then { t with selected := true } else t))
      reset
    .ok { db with outcome_titles := updated }
  else
    .error "Report not found or access denied"

/-- Insertion of a title row into a list sorted by `title_index` (ascending,
stable): the embedding of Supabase's `.order("title_index")`. -/
def insertByIdx (t : TitleRow) : List TitleRow → List TitleRow
  | [] => [t]
  | u :: us => if t.title_index < u.title_index then t :: u :: us else u :: insertByIdx t us

/-- Sort title rows by `title_index` (insertion sort, stable). -/
def sortByIdx : List TitleRow → List TitleRow
  | [] => []
  | t :: ts => insertByIdx t (sortByIdx ts)

/-- `database.get_selected_titles`: after an ownership check, the title rows
of the report with `selected = True`, ordered by `title_index`. -/
def get_selected_titles (rid uid : String) (db : DB) : Except String (List TitleRow) :=
  if db.reports.any (fun r => r.id = rid ∧ r.user_id = uid) then
    .ok (sortByIdx ((db.outcome_titles.filter (fun t => t.report_id = rid)).filter
      (fun t => t.selected)))
  else
    .error "Report not found or access denied"

/-- The `pov_outcomes` rows of one report, as `get_pov_report_data` reads
them back (that endpoint additionally orders them by `outcome_index`; the
pipeline always inserts them already in ascending `outcome_index` order). -/
def queryOutcomeDetails (rid : String) (db : DB) : List OutcomeRow :=
  db.outcomes.filter (fun o => o.report_id = rid)

/-- The fixed section marker `save_summary_and_takeaways` splits on. -/
def marker : Str := S "## **Key Takeaways & Next Steps**"

/-- Naive left-to-right substring search: the first index of `s` at which
`m` occurs, if any. -/
def findSub (m : Str) : Str → Option Nat
  | [] => if m.isEmpty then some 0 else none
  | c :: rest =>
    if m.isPrefixOf (c :: rest) then some 0 else (findSub m rest).map (· + 1)

/-- Python `str.split(sep)` for a non-empty separator: cut at each
non-overlapping occurrence, scanning left to right.  Fuelled structurally;
each step consumes at least `sep.length ≥ 1` characters, so
`s.length + 1` fuel (see `pySplit`) is always enough. -/
def pySplitF (m : Str) : Nat → Str → List Str
  | 0, s => [s]
  | fuel + 1, s =>
    match findSub m s with
    | none => [s]
    | some i => s.take i :: pySplitF m fuel (s.drop (i + m.length))

/-- Python `str.split(sep)` (non-empty `sep`). -/
def pySplit (m s : Str) : List Str := pySplitF m (s.length + 1) s

/-- The literal before `\d+` in the summary-heading regex of
`save_summary_and_takeaways`. -/
def headingLit1 : Str := S "## **Summary & Strategic Integration of All "

/-- The literal after `\d+` in the summary-heading regex. -/
def headingLit2 : Str := S " Outcomes**"

/-- Match a literal against the front of a string, returning the rest. -/
def dropLit : Str → Str → Option Str
  | [], s => some s
  | _ :: _, [] => none
  | c :: cs, d :: ds => if c = d then dropLit cs ds else none

/-- Match the regex
`## \*\*Summary & Strategic Integration of All \d+ Outcomes\*\*\s*`
at the start of `s` (greedy `\d+` and `\s*` need no backtracking here
because a space follows the digits in the pattern; digits and whitespace
are modelled as ASCII, the only characters the pipeline produces there).
Returns the remainder
after the match, and whether the last matched character is a newline —
which is what decides whether the position after the match is a MULTILINE
line start for `re.sub`'s next attempt. -/
def matchHeading (s : Str) : Option (Str × Bool) :=
  match dropLit headingLit1 s with
  | none => none
  | some r1 =>
    if (r1.takeWhile Char.isDigit).isEmpty then none
    else
      match dropLit headingLit2 (r1.dropWhile Char.isDigit) with
      | none => none
      | some r2 =>
        some (r2.dropWhile isPySpace, (r2.takeWhile isPySpace).getLast? == some '\n')

/-- `re.sub(summary-heading-regex, '', text, flags=re.MULTILINE)`: delete
every line-start occurrence of the summary heading.  `atLS` says whether
the current position is a line start (start of text, or just after a
newline).  Fuelled structurally; every step consumes at least one
character. -/
def stripHeadingF : Nat → Bool → Str → Str
  | 0, _, s => s
  | fuel + 1, atLS, s =>
    match s with
    | [] => []
    | c :: rest =>
      if atLS then
        match matchHeading (c :: rest) with
        | some (r, nl) => stripHeadingF fuel nl r
        | none => c :: stripHeadingF fuel (c == '\n') rest
      else c :: stripHeadingF fuel (c == '\n') rest

/-- The `re.sub` call of `save_summary_and_takeaways` over a whole text. -/
def stripHeading (s : Str) : Str := stripHeadingF (s.length + 1) true s

/-- The text processing of `database.save_summary_and_takeaways`:
`parts = summary_content.split(marker)`; the summary is `parts[0]` with
every line-start summary heading removed and whitespace stripped; the
takeaways are `parts[1].strip()` when the split produced a second part and
`""` otherwise. -/
def saveSummarySplit (content : Str) : Str × Str :=
  match pySplit marker content with
  | [] => ([], [])
  | [p0] => (pyStrip (stripHeading p0), [])
  | p0 :: p1 :: _ => (pyStrip (stripHeading p0), pyStrip p1)

/-- `database.save_summary_and_takeaways`: delete any existing summary row
of the report (overwrite semantics), split the combined content, insert the
new row. -/
def save_summary_and_takeaways (rid : String) (content : String) (db : DB) : DB :=
  let st := saveSummarySplit content.data
  { db with
    summaries :=
      db.summaries.filter (fun s => ¬ (s.report_id = rid)) ++ [⟨rid, st.1, st.2⟩] }

/-- `llm.llm_call`: submit one chat completion per instruction and collect
the answers with `asyncio.gather`, which returns results in task-submission
order.  The external completion service is the abstract function
`complete`; under the spec's adapter contract (one completion per prompt,
in order) the call is exactly a map. -/
def llm_call (complete : String → String) (instructions : List String) : List String :=
  instructions.map complete

/-- `llm.generate_outcome_titles_prompt` (transcribed f-string; `None`
arguments render as the string "None", which the embedding's caller passes
explicitly). -/
def generate_outcome_titles_prompt (background_context vendor_name target_customer_name role_names : String) (num_outcomes : Nat) : String :=
  "\n"
  ++ "Based on the following background context about "
  ++ vendor_name
  ++ " and "
  ++ target_customer_name
  ++ ", generate a list of exactly "
  ++ Nat.repr num_outcomes
  ++ " concise, impactful, and distinct outcome titles relevant to "
  ++ target_customer_name
  ++ "'s industry and the "
  ++ role_names
  ++ ".\n"
  ++ "\n"
  ++ "These outcomes should represent key strategic goals, challenges, or transformations that "
  ++ vendor_name
  ++ "'s offerings can help "
  ++ target_customer_name
  ++ " achieve, specifically for the "
  ++ role_names
  ++ ".\n"
  ++ "\n"
  ++ "**Background Context:**\n"
  ++ background_context
  ++ "\n"
  ++ "\n"
  ++ "**Instructions:**\n"
  ++ "1.  Analyze the provided context carefully, paying attention to the customer's industry, potential needs, and the vendor's capabilities.\n"
  ++ "2.  Generate exactly "
  ++ Nat.repr num_outcomes
  ++ " unique and relevant outcome titles.\n"
  ++ "3.  Each title should be concise (ideally 5-10 words) and clearly articulate a valuable outcome.\n"
  ++ "4.  Format the output strictly as a JSON list of strings. Example:\n"
  ++ "    [\"Outcome Title 1\", \"Outcome Title 2\", ..., \"Outcome Title "
  ++ Nat.repr num_outcomes
  ++ "\"]\n"
  ++ "\n"
  ++ "**Output:**\n"
  ++ "Return *only* the JSON list containing the "
  ++ Nat.repr num_outcomes
  ++ " outcome titles. Do not include any introductory text, explanations, or markdown formatting around the JSON list.\n"

/-- `llm.generate_single_outcome_detail_prompt` (transcribed f-string). -/
def generate_single_outcome_detail_prompt (background_context outcome_title vendor_name target_customer_name role_names : String) : String :=
  "\n"
  ++ "You are a **world-class strategic advisor and master narrative consultant** from a top-tier firm, specializing in crafting deeply insightful and compelling Point-of-View (POV) analyses using the Jobs-to-be-Done framework. You write with **authority, precision, and a highly engaging, narrative style**. Your expertise includes **deep knowledge** of the industry and operational context relevant to **"
  ++ target_customer_name
  ++ "**, derived from the provided background information. You excel at **bringing abstract concepts to life with concrete, industry-relevant examples and vivid detail.** Your writing is not just informative but **deeply engaging and insightful**.\n"
  ++ "\n"
  ++ "**CRITICAL LANGUAGE INSTRUCTION: Use clear, accessible English throughout. Avoid complex business jargon, overly sophisticated vocabulary, and academic language. Write in a way that is professional but easy to understand. Use simple, direct sentences and common words instead of complex terminology. The content should be insightful and analytical but expressed in plain English that any business professional can easily follow.**\n"
  ++ "\n"
  ++ "Your task is to generate an **exceptionally insightful, deeply analytical, and highly persuasive YET CONCISE** detailed analysis for the *single* outcome titled: **\""
  ++ outcome_title
  ++ "\"**. This analysis maps "
  ++ vendor_name
  ++ "'s capabilities to "
  ++ target_customer_name
  ++ "'s needs, specifically for the "
  ++ role_names
  ++ ". **This section must possess the depth, nuance, and strategic clarity expected of a premium consulting deliverable, delivered succinctly.**\n"
  ++ "\n"
  ++ "Use the following background context, **integrating it deeply and specifically throughout, PAYING PARTICULAR ATTENTION to the 'Customer Research' section to understand their specific industry and operations**:\n"
  ++ "\n"
  ++ "**Background Context:**\n"
  ++ background_context
  ++ "\n"
  ++ "\n"
  ++ "**CRITICAL REQUIREMENTS & VERY HIGH-QUALITY STANDARDS FOR THIS SINGLE, CONCISE OUTCOME:**\n"
  ++ "1.  **DEEP CONTEXTUALIZATION (NON-NEGOTIABLE & CONCISE):** Weave in **specific examples** and terminology relevant to **"
  ++ target_customer_name
  ++ "'s specific industry and operational context**... **Show, don't just tell, but do so efficiently.**\n"
  ++ "2.  **NARRATIVE DEPTH & STRUCTURED DETAIL (CONCISELY DELIVERED):** For this single outcome:\n"
  ++ "    *   Use bullet points (`-` or `*`) or numbered lists (`1.`, `2.`) to structure distinct items...\n"
  ++ "    *   **Crucially, EACH item listed MUST be followed by a CONCISE, analytical paragraph** (concisely, ~30-80 words) meeting the depth requirements outlined below. **Focus on the core insight.**\n"
  ++ "3.  **PRECISE FORMATTING:**\n"
  ++ "    *   Use **Markdown H2 (`##`)** for the main '## **Outcome: "
  ++ outcome_title
  ++ "**' title.\n"
  ++ "    *   Use **Markdown H3 (`###`)** for all subsections within this outcome (e.g., 'Functional Jobs,' 'Pain Points,' 'Solutions').\n"
  ++ "    *   **ALL headings (BOTH H2 and H3 levels) MUST be bolded (`**...**`)**.\n"
  ++ "4.  **CONSULTATIVE TONE & ANALYSIS:** Maintain a highly professional, strategic, and authoritative tone throughout. **Go beyond stating facts; analyze implications, connect ideas across sections, and provide strategic insights.** Use **clear, accessible language** and a **compelling narrative structure**. Avoid clichés, boilerplate text, or overly simplistic explanations. Ensure explanations flow logically and persuasively. Your analysis must demonstrate **critical thinking and foresight.**\n"
  ++ "5.  **Structure the output EXACTLY as follows for THIS ONE outcome, focusing on conciseness within each section:**\n"
  ++ "\n"
  ++ "## **Outcome: "
  ++ outcome_title
  ++ "**\n"
  ++ "\n"
  ++ "**Outcome Description (Deep Dive):**\n"
  ++ "    - Provide a **concise yet insightful paragraph (concisely, ~40-80 words)** vividly describing the outcome \""
  ++ outcome_title
  ++ "\". Explain its **critical importance specifically within "
  ++ target_customer_name
  ++ "'s specific operational context**...\n"
  ++ "\n"
  ++ "### **Functional Jobs**\n"
  ++ "    - **List** exactly 2 core functional tasks using bullets (`*`) or numbers (`1.`).\n"
  ++ "    - **Following EACH listed job, elaborate concisely in an analytical paragraph (concisely, ~30-80 words)** on *why* this job is crucial in **"
  ++ target_customer_name
  ++ "'s specific operational environment**... **Critically analyze *why* this job matters strategically**... Provide **substantive but brief analysis for each point.**\n"
  ++ "\n"
  ++ "### **Hidden / Emotional Jobs**\n"
  ++ "    - **List** exactly 2 underlying emotional drivers/stakes using bullets (`*`) or numbers (`1.`).\n"
  ++ "    - **Following EACH listed driver/stake, unpack concisely in a detailed paragraph (concisely, ~30-80 words)** the core reasons behind these emotions within **"
  ++ target_customer_name
  ++ "'s industry context**... Provide **illustrative examples**... Go deep into the personal and professional implications, **focusing on the key emotional drivers.**\n"
  ++ "\n"
  ++ "### **Success Metrics**\n"
  ++ "    - **List** specific, measurable metrics including **at least one Leading Indicator and at least one Lagging Indicator**. Format exactly as: \"**Leading Indicator:** [metric name]\" and \"**Lagging Indicator:** [metric name]\".\n"
  ++ "    - **Following EACH metric, explain concisely in a detailed paragraph (concisely, ~30-80 words)** its significance and interpretation within "
  ++ target_customer_name
  ++ "'s context... analyze *how* it reflects success and *why* it's critical...\n"
  ++ "\n"
  ++ "### **Pain Points**\n"
  ++ "    - **List** exactly 3 significant pain points using bullets (`*`) or numbers (`1.`).\n"
  ++ "    - **Following EACH listed pain point, provide a concise, detailed paragraph (concisely, ~30-80 words)** analyzing its root causes and illustrating its operational/financial impact... Explain the **key consequences**... **Map out the core causal chain briefly.** Connect pains to the emotional strain... **Provide insightful but brief analysis for each point.**\n"
  ++ "\n"
  ++ "### **Solutions ("
  ++ vendor_name
  ++ "'s Offering)**\n"
  ++ "    - **List** exactly 3 "
  ++ vendor_name
  ++ " offerings/solutions that directly address the 3 pain points listed above (maintain one-to-one mapping).\n"
  ++ "    - **Following EACH listed solution, provide a concise, detailed paragraph (concisely, ~30-80 words)** using a 'What/How/Value' narrative structure... Explain the underlying principle... Dissect the core mechanism... Articulate the key value **for them**... Contrast before/after **succinctly**... **Provide concise analysis for each solution.**\n"
  ++ "\n"
  ++ "### **Hidden Emotional Benefits**\n"
  ++ "    - **List** exactly 2 key emotional benefits using bullets (`*`) or numbers (`1.`).\n"
  ++ "    - **Following EACH listed benefit, explain concisely in a detailed paragraph (concisely, ~30-80 words)** *precisely how* the solution delivers this emotional relief **within the context of "
  ++ target_customer_name
  ++ "'s challenges**... explicitly connect back to specific Hidden/Emotional Jobs and Pain Points...\n"
  ++ "\n"
  ++ "### **Summary of Outcome: "
  ++ outcome_title
  ++ "**\n"
  ++ "    - Provide a **very concise concluding paragraph (concise, 2-3 sentences)** **synthesizing** the core transformation... Explicitly state how addressing this outcome creates **tangible strategic value**...\n"
  ++ "\n"
  ++ "**FINAL MANDATORY REVIEW FOR THIS SECTION:** Before concluding, meticulously review your response for this single outcome. Does it meet the depth, nuance, context, and formatting requirements specified above, **while adhering to the conciseness instructions?** **Output failing these high standards is unacceptable.**\n"

/-- `llm.generate_summary_takeaways_prompt` (transcribed f-string). -/
def generate_summary_takeaways_prompt (background_context vendor_name target_customer_name role_names : String) (num_outcomes : Nat) : String :=
  "\n"
  ++ "You are a **world-class strategic advisor and master narrative consultant** from a top-tier firm.\n"
  ++ "\n"
  ++ "**CRITICAL LANGUAGE INSTRUCTION: Use clear, accessible English throughout. Avoid complex business jargon, overly sophisticated vocabulary, and academic language. Write in a way that is professional but easy to understand. Use simple, direct sentences and common words instead of complex terminology. The content should be insightful and analytical but expressed in plain English that any business professional can easily follow.**\n"
  ++ "\n"
  ++ "Based on the comprehensive analysis implicitly covered across "
  ++ Nat.repr num_outcomes
  ++ " distinct outcomes (which you should infer from the provided background context), generate **ONLY** the final \"Summary & Strategic Integration\" and \"Key Takeaways & Next Steps\" sections for a Point-of-View (POV) report mapping "
  ++ vendor_name
  ++ "'s capabilities to "
  ++ target_customer_name
  ++ "'s needs, specifically for the "
  ++ role_names
  ++ ".\n"
  ++ "\n"
  ++ "**Background Context (Use this to inform the summary and takeaways):**\n"
  ++ background_context
  ++ "\n"
  ++ "\n"
  ++ "**Instructions for the Sections to Generate:**\n"
  ++ "\n"
  ++ "--- [Assume a rule precedes this section in the final document] ---\n"
  ++ "\n"
  ++ "## **Summary & Strategic Integration of All "
  ++ Nat.repr num_outcomes
  ++ " Outcomes**\n"
  ++ "    - Synthesize the overall strategic narrative emerging from the (implied) "
  ++ Nat.repr num_outcomes
  ++ " outcomes.\n"
  ++ "    - **Use numbered lists (`1.`, `2.`, etc.) for the main integration points.**\n"
  ++ "    - **Ensure EACH numbered point is followed by a detailed, analytical paragraph** providing strategic guidance and rationale, **tailored to "
  ++ target_customer_name
  ++ "'s overall business context**. Explain how the combined impact of addressing these outcomes repositions "
  ++ target_customer_name
  ++ " competitively. Connect the dots between individual outcomes to highlight synergistic effects. Articulate the overarching value proposition at a strategic level.\n"
  ++ "\n"
  ++ "--- [Ensure rule used before Key Takeaways] ---\n"
  ++ "\n"
  ++ "## **Key Takeaways & Next Steps**\n"
  ++ "    - Distill the most critical insights and actionable recommendations.\n"
  ++ "    - **Use bullet points (`-` or `*`) for the main takeaways.**\n"
  ++ "    - **Ensure EACH bullet point is followed by a detailed, analytical paragraph** articulating the strategic value, positioning, collaboration needs, or empowerment focus, **all within the context of "
  ++ target_customer_name
  ++ "**. Focus on actionable next steps, potential implementation considerations, and how to maintain momentum. Frame the key benefits in executive-level language.\n"
  ++ "\n"
  ++ "**Formatting Requirements:**\n"
  ++ "*   Use **Markdown H2 (`##`)** for the two main section titles, bolded (`**...**`).\n"
  ++ "*   Use numbered lists/bullet points as specified above.\n"
  ++ "*   Ensure each point is followed by a detailed analytical paragraph.\n"
  ++ "*   Maintain a highly professional, strategic, and authoritative tone. Use **clear, accessible language that remains professional and strategic**.\n"
  ++ "*   Start the output directly with `## **Summary & Strategic Integration...**`. Do not include any introductory text before this heading. Include the `---` separator between the two sections as shown.\n"
  ++ "\n"
  ++ "**Output:**\n"
  ++ "Return *only* the markdown for these two final sections, formatted exactly as specified.\n"

/-- The three-way result dict of the `process_*` sub-gathering coroutines:
`'status': 'success'` with data, `'skipped'` with a reason, or `'error'`
with a reason. -/
inductive FetchResult where
  | success (data : String)
  | skipped (reason : String)
  | error (reason : String)
deriving DecidableEq, Repr

/-- `pov_function.process_research`: skip when no URL was supplied
(`not url or not url.strip()`), otherwise run the crawl and turn any raised
exception into an `error` result — the coroutine itself never raises.
`crawl` is the external `crawl_and_analyze_company_website` boundary: `.ok`
carries the crawl's research payload (the parsed JSON object, carried here
in its serialized form, with Python truthiness of the object corresponding
to the payload being non-empty), `.error` a raised exception's message. -/
def process_research (crawl : String → Except String String)
    (url research_type : String) : FetchResult :=
  if url.data.all isPySpace then
    .skipped ("No " ++ research_type ++ " URL provided")
  else
    match crawl url with
    | .ok d => .success d
    | .error e => .error ("Error analyzing " ++ research_type ++ ": " ++ e)

/-- `pov_function.process_file_content`: skip when the path is empty or the
file does not exist, otherwise read it, turning exceptions into `error`. -/
def process_file_content (read_file : String → Except String String)
    (path_exists : String → Bool) (file_path : String) : FetchResult :=
  if file_path.isEmpty ∨ ¬ path_exists file_path then
    .skipped "File not provided or doesn't exist"
  else
    match read_file file_path with
    | .ok d => .success d
    | .error e => .error ("Error processing file: " ++ e)

/-- `pov_function.process_linkedin_profiles`: skip on a missing/blank URL
text (a Python `None` argument is modelled as `""`), otherwise fetch,
turning exceptions into `error`. -/
def process_linkedin_profiles (fetch : String → Except String String)
    (linkedin_urls_text : String) : FetchResult :=
  if linkedin_urls_text.data.all isPySpace then
    .skipped "No LinkedIn URLs provided"
  else
    match fetch linkedin_urls_text with
    | .ok d => .success d
    | .error e => .error ("Error fetching LinkedIn profiles: " ++ e)

/-- The external I/O collaborators of the Context Gatherer. -/
structure GatherOracles where
  crawl : String → Except String String
  read_file : String → Except String String
  path_exists : String → Bool
  fetch_linkedin : String → Except String String

/-- The Context Gatherer's concurrent task list (`generate_pov_analysis_parallel`
lines 185-202 and its verbatim copies): vendor research, customer research,
one task per vendor file, one per customer file, and a LinkedIn task when a
URL text was given (`if linkedin_urls:`).  `asyncio.gather` returns the
results in this submission order regardless of completion order.  A Python
`None` file list is modelled as `[]` (both are falsy and contribute no
tasks). -/
def gatherResults (o : GatherOracles) (vendor_url target_customer_url : String)
    (vendor_files customer_files : List String) (linkedin_urls : String) :
    List FetchResult :=
  [process_research o.crawl vendor_url "vendor",
   process_research o.crawl target_customer_url "customer"]
  ++ vendor_files.map (process_file_content o.read_file o.path_exists)
  ++ customer_files.map (process_file_content o.read_file o.path_exists)
  ++ (if linkedin_urls.isEmpty then []
      else [process_linkedin_profiles o.fetch_linkedin linkedin_urls])

/-- The per-bucket results the extraction loop accumulates
(`vendor_research = None` etc. before the loop). -/
structure GatherAcc where
  vendor_research : Option String
  customer_research : Option String
  vendor_file_content : List String
  customer_file_content : List String
  linkedin_profiles_data : Option String
deriving DecidableEq, Repr

/-- The extraction loop over the gathered results
(`for i, result in enumerate(results)`, lines 210-223): a `success` result
is routed by its index into one of the five buckets
(`vendor_research_idx = 0`, `customer_research_idx = 1`, vendor files from
index 2 up to `customer_files_start`, customer files up to the LinkedIn
index — or the total count when no LinkedIn task ran —, and the LinkedIn
index itself); `skipped` and `error` results contribute nothing. -/
def gatherStep (customer_files_start : Nat) (linkedin_idx : Option Nat)
    (total : Nat) (acc : GatherAcc) (p : Nat × FetchResult) : GatherAcc :=
  match p.2 with
  | .success d =>
    if p.1 = 0 then { acc with vendor_research := some d }
    else if p.1 = 1 then { acc with customer_research := some d }
    else if 2 ≤ p.1 ∧ p.1 < customer_files_start then
      { acc with vendor_file_content := acc.vendor_file_content ++ [d] }
    else if customer_files_start ≤ p.1 ∧
        p.1 < (match linkedin_idx with | some k => k | none => total) then
      { acc with customer_file_content := acc.customer_file_content ++ [d] }
    else if linkedin_idx = some p.1 then
      { acc with linkedin_profiles_data := some d }
    else acc
  | _ => acc

/-- The whole extraction loop. -/
def extractGather (results : List FetchResult) (customer_files_start : Nat)
    (linkedin_idx : Option Nat) (total : Nat) : GatherAcc :=
  results.enum.foldl (gatherStep customer_files_start linkedin_idx total)
    ⟨none, none, [], [], none⟩

/-- Python truthiness over an optional text payload, as used by the
background-context f-string: a missing (`None`) or falsy value renders as
the fixed alternative. -/
def pyOptStr (alt : String) : Option String → String
  | some d => if d.isEmpty then alt else d
  | none => alt

/-- `json.dumps(list_of_document_texts, indent=2)` at the external
json-library boundary.  No claim depends on the exact rendering, only on
the list's truthiness, so the embedding uses a plain quoted-list form. -/
def dumpsDocs (docs : List String) : String :=
  "[" ++ String.intercalate ", " (docs.map (fun d => "\"" ++ d ++ "\"")) ++ "]"

/-- The background-context f-string (`generate_pov_analysis_parallel`
lines 225-244, repeated verbatim in `generate_pov_titles_only` and — with
`grok_context` appended before the final newline — in the fallback path of
`generate_selected_outcomes_only`; the first two call sites pass
`grok_context = ""`). -/
def buildBackgroundContext (vendor_name vendor_url vendor_services
    target_customer_name target_customer_url roles_sold_to linkedin_urls
    role_names role_context additional_context : String) (acc : GatherAcc)
    (grok_context : String) : String :=
  "\nvendor_name: " ++ vendor_name
  ++ "\nvendor_url: " ++ vendor_url
  ++ "\nvendor_services: " ++ vendor_services
  ++ "\ntarget_customer_name: " ++ target_customer_name
  ++ "\ntarget_customer_url: " ++ target_customer_url
  ++ "\nroles_sold_to: " ++ roles_sold_to
  ++ "\nlinkedin_urls: " ++ linkedin_urls
  ++ "\nrole_names: " ++ role_names
  ++ "\nrole_context: " ++ role_context
  ++ "\nadditional_context: " ++ additional_context
  ++ "\n\nVendor Research: " ++ pyOptStr "Not available" acc.vendor_research
  ++ "\nCustomer Research: " ++ pyOptStr "Not available" acc.customer_research
  ++ "\n\nVendor Document Analysis: "
  ++ (if acc.vendor_file_content.isEmpty then "No documents provided"
      else dumpsDocs acc.vendor_file_content)
  ++ "\nCustomer Document Analysis: "
  ++ (if acc.customer_file_content.isEmpty then "No documents provided"
      else dumpsDocs acc.customer_file_content)
  ++ "\n\nLinkedIn Profiles Analysis: "
  ++ pyOptStr "Not available or not requested" acc.linkedin_profiles_data
  ++ grok_context
  ++ "\n"

/-- Step 0 of the generation functions: run every sub-gathering task,
collect the results in submission order, route them into buckets and
assemble the background-context text.  Total by construction — each
sub-task converts its own exceptions into an `error` result, so no
sub-task failure can abort the gather or the other tasks. -/
def gatherBackgroundContext (o : GatherOracles)
    (vendor_name vendor_url vendor_services target_customer_name
     target_customer_url roles_sold_to linkedin_urls role_names role_context
     additional_context : String)
    (vendor_files customer_files : List String) (grok_context : String) : String :=
  let results := gatherResults o vendor_url target_customer_url vendor_files
    customer_files linkedin_urls
  let customer_files_start := 2 + vendor_files.length
  let linkedin_idx : Option Nat :=
    if linkedin_urls.isEmpty then none
    else some (customer_files_start + customer_files.length)
  let acc := extractGather results customer_files_start linkedin_idx results.length
  buildBackgroundContext vendor_name vendor_url vendor_services
    target_customer_name target_customer_url roles_sold_to linkedin_urls
    role_names role_context additional_context acc grok_context

/-- The parse result of the title response: `json.loads` produced a list,
or anything else (a JSON non-list value, or a `json.JSONDecodeError` — both
raise `ValueError` in the source). -/
inductive TitleParse where
  | list (titles : List String)
  | notList
deriving DecidableEq, Repr

/-- The failure modes of title generation: `Parsed JSON is not a list` /
`Could not decode JSON` (→ `malformedOutput`), `LLM generated an empty list
of titles` (→ `emptyResult`), and the final `if not outcome_titles` guard
after the parse (→ `noTitles`). -/
inductive TitleError where
  | malformedOutput
  | emptyResult
  | noTitles
deriving DecidableEq, Repr

/-- The title validation of `generate_pov_titles_only` (lines 476-502) and,
with `num_outcomes` fixed at 15, of `generate_pov_analysis_parallel`
(lines 262-290): a non-list parse fails; a list shorter than requested is
kept with only a logged warning unless it is empty, which fails; a longer
list is truncated to the first `num_outcomes`; and the surviving list must
still be non-empty (the function's trailing `if not outcome_titles`
guard). -/
def validateTitles (num_outcomes : Nat) (p : TitleParse) :
    Except TitleError (List String) :=
  match p with
  | .notList => .error .malformedOutput
  | .list ts =>
    if ts.length < num_outcomes ∧ ts.length = 0 then .error .emptyResult
    else
      let outcome_titles := if ts.length > num_outcomes then ts.take num_outcomes else ts
      if outcome_titles.isEmpty then .error .noTitles else .ok outcome_titles

/-- The Detail Fan-Out of `generate_pov_analysis_parallel` (lines 295-306):
build one detail prompt per outcome title and submit them as a single
`llm_call` batch. -/
def detailFanOutFull (complete : String → String)
    (background_context vendor_name target_customer_name role_names : String)
    (outcome_titles : List String) : List String :=
  llm_call complete
    (outcome_titles.map (fun title =>
      generate_single_outcome_detail_prompt background_context title vendor_name
        target_customer_name role_names))

/-- The Detail Fan-Out of `generate_selected_outcomes_only` (lines 633-644):
one detail prompt per selected title dict (its `title` entry), submitted as
a single `llm_call` batch. -/
def detailFanOutSelected (complete : String → String)
    (background_context vendor_name target_customer_name role_names : String)
    (selected_titles : List TitleRow) : List String :=
  llm_call complete
    (selected_titles.map (fun title_data =>
      generate_single_outcome_detail_prompt background_context title_data.title
        vendor_name target_customer_name role_names))

/-- The return value of `generate_selected_outcomes_only`:
`{'outcomes': …, 'summary': …}`. -/
structure SelOutput where
  outcomes : List String
  summary : String
deriving DecidableEq, Repr

/-- The `grok_context` block of the fallback path of
`generate_selected_outcomes_only` (lines 605-608): present only when Grok
research was stored and its `pov_context_block` is truthy. -/
def grokContextBlock : Option String → String
  | some g => if g.isEmpty then "" else "\n\nGrok Enhanced Research:\n" ++ g
  | none => ""

/-- `pov_function.generate_selected_outcomes_only` (Phase 2 of the
selective workflow): load the stored context via `get_context_data` and use
its `background_context`; on any failure of that load, fall back to
re-running the full context gather (with the Grok `pov_context_block`
appended when present and truthy); then run the detail fan-out over the
selected titles and the summary generation against the resulting
background context.  `grok_research` is the stored research's
`pov_context_block` (`none` when absent). -/
def generate_selected_outcomes_only (complete : String → String)
    (o : GatherOracles) (db : DB) (report_id user_id : String)
    (selected_titles : List TitleRow)
    (vendor_name vendor_url vendor_services target_customer_name
     target_customer_url roles_sold_to linkedin_urls role_names role_context
     additional_context : String)
    (vendor_files customer_files : List String)
    (grok_research : Option String) : SelOutput :=
  let background_context :=
    match get_context_data report_id user_id db with
    | .ok stored_context => stored_context.background_context
    | .error _ =>
      gatherBackgroundContext o vendor_name vendor_url vendor_services
        target_customer_name target_customer_url roles_sold_to linkedin_urls
        role_names role_context additional_context vendor_files customer_files
        (grokContextBlock grok_research)
  let outcome_details_markdown := detailFanOutSelected complete
    background_context vendor_name target_customer_name role_names
    selected_titles
  let summary_prompt := generate_summary_takeaways_prompt background_context
    vendor_name target_customer_name role_names selected_titles.length
  let summary_takeaways_markdown :=
    match llm_call complete [summary_prompt] with
    | s :: _ => s
    | [] =>
      "\n## **Summary & Strategic Integration of All "
      ++ Nat.repr selected_titles.length
      ++ " Selected Outcomes**\n\n*Error: Failed to generate Summary & Strategic Integration.*\n\n---\n\n## **Key Takeaways & Next Steps**\n\n*Error: Failed to generate Key Takeaways & Next Steps.*"
  ⟨outcome_details_markdown, summary_takeaways_markdown⟩

/-- The verdict of one endpoint invocation: the stores afterwards, the
successive values the run wrote to the report's `status` column (the
creating insert's `processing` included), and whether the endpoint
returned normally. -/
structure RunResult where
  db : DB
  statusWrites : List Status
  ok : Bool
deriving DecidableEq, Repr

/-- The except-handler shared by the three generation endpoints: update the
report's status to `failed`, then re-raise as HTTP 500. -/
def failRun (rid : String) (db : DB) (writes : List Status) : RunResult :=
  ⟨update_report_status rid .failed db, writes ++ [.failed], false⟩

/-- The steps of the full-workflow endpoint's guarded body that can raise
(`main.py` lines 460-603). -/
inductive FullStep where
  | genTitles
  | saveTitles
  | genDetails
  | saveDetails
  | genSummary
  | saveSummary
  | setStatus
  | incrCount
deriving DecidableEq, Repr

/-- The `/generate-pov-to-database` endpoint (full workflow, `main.py`
lines 441-603) as a status state machine.  `fail = some step` injects
"this step raised an exception"; an injected step performs no write of its
own.  The generated payloads (titles, details, combined summary) are
carried as data — their contents do not influence the transitions — so the
machine takes them as parameters instead of re-running the LLM model. -/
def fullRun (fail : Option FullStep) (rid uid : String) (f : ReportFields)
    (titles details : List String) (summary : String) (db0 : DB) : RunResult :=
  let db := create_pov_report rid uid f db0
  let w := [Status.processing]
  if fail = some .genTitles then failRun rid db w
  else if fail = some .saveTitles then failRun rid db w
  else
    let db := save_outcome_titles rid titles db
    if fail = some .genDetails then failRun rid db w
    else if fail = some .saveDetails then failRun rid db w
    else
      let db := save_outcome_details rid details db
      if fail = some .genSummary then failRun rid db w
      else if fail = some .saveSummary then failRun rid db w
      else
        let db := save_summary_and_takeaways rid summary db
        if fail = some .setStatus then failRun rid db w
        else
          let db := update_report_status rid .completed db
          let w := w ++ [Status.completed]
          if fail = some .incrCount then failRun rid db w
          else ⟨db, w, true⟩

/-- The steps of the Phase-1 endpoint's guarded body that can raise
(`main.py` lines 1053-1124).  `saveGrok` is the optional Grok persistence;
a run without Grok data simply never injects it. -/
inductive P1Step where
  | genTitles
  | saveTitles
  | saveGrok
  | saveContext
  | setStatus
  | incrCount
deriving DecidableEq, Repr

/-- The Phase-1 (titles-only) endpoint of the selective workflow
(`main.py` lines 1034-1124) as a status state machine, with the same
failure-injection convention as `fullRun`. -/
def phase1Run (fail : Option P1Step) (rid uid : String) (f : ReportFields)
    (titles : List String) (ctx : ContextData) (db0 : DB) : RunResult :=
  let db := create_pov_report rid uid f db0
  let w := [Status.processing]
  if fail = some .genTitles then failRun rid db w
  else if fail = some .saveTitles then failRun rid db w
  else
    let db := save_outcome_titles rid titles db
    if fail = some .saveGrok then failRun rid db w
    else if fail = some .saveContext then failRun rid db w
    else
      let db := save_context_data rid ctx db
      if fail = some .setStatus then failRun rid db w
      else
        let db := update_report_status rid .titlesGenerated db
        let w := w ++ [Status.titlesGenerated]
        if fail = some .incrCount then failRun rid db w
        else ⟨db, w, true⟩

/-- The steps of the Phase-2 endpoint's guarded body that can raise
(`main.py` lines 1206-1272). -/
inductive P2Step where
  | genOutcomes
  | saveDetails
  | saveSummary
  | setStatus
deriving DecidableEq, Repr

/-- `main.py` lines 1233-1240: pair each selected title with the outcome
text at the same position
(`result["outcomes"][i]` for `i in range(len(selected_titles))`);
`none` models the `IndexError` raised when fewer outcome texts than
selected titles came back. -/
def buildOutcomesData (selected_titles : List TitleRow)
    (outcomes : List String) : Option (List OutcomeInput) :=
  if selected_titles.length ≤ outcomes.length then
    some ((selected_titles.zip outcomes).map
      (fun p => ⟨p.1.title_index, p.1.title, p.2⟩))
  else none

/-- The Phase-2 endpoint of the selective workflow
(`main.py` lines 1165-1272) as a status state machine.  The precondition
checks of the outer try (report ownership, non-empty selection) raise HTTP
errors without writing any status; exceptions inside the guarded body run
the `failed` except-handler.  The report's descriptive fields are read back
from the stored report row; `vendor_files`/`customer_files` are not passed
by this endpoint (Python `None`). -/
def phase2Run (fail : Option P2Step) (complete : String → String)
    (o : GatherOracles) (rid uid : String) (grok_research : Option String)
    (db0 : DB) : RunResult :=
  match db0.reports.find? (fun r => r.id = rid ∧ r.user_id = uid) with
  | none => ⟨db0, [], false⟩
  | some report =>
    match get_selected_titles rid uid db0 with
    | .error _ => ⟨db0, [], false⟩
    | .ok selected_titles =>
      if selected_titles.isEmpty then ⟨db0, [], false⟩
      else if fail = some .genOutcomes then failRun rid db0 []
      else
        let f := report.fields
        let result := generate_selected_outcomes_only complete o db0 rid uid
          selected_titles f.vendor_name f.vendor_url f.vendor_services
          f.target_customer_name f.target_customer_url f.role_names
          f.linkedin_urls f.role_names f.role_context f.additional_context
          [] [] grok_research
        match buildOutcomesData selected_titles result.outcomes with
        | none => failRun rid db0 []
        | some outcomes_data =>
          if fail = some .saveDetails then failRun rid db0 []
          else
            let db := save_selected_outcome_details rid outcomes_data db0
            if fail = some .saveSummary then failRun rid db []
            else
              let db := save_summary_and_takeaways rid result.summary db
              if fail = some .setStatus then failRun rid db []
              else ⟨update_report_status rid .completed db, [Status.completed], true⟩

/-- The current status of a report: the first stored row with the id. -/
def reportStatus (rid : String) (db : DB) : Option Status :=
  (db.reports.find? (fun r => r.id = rid)).map (fun r => r.status)

/-- A sample request used by concrete counterexample states. -/
def sampleFields : ReportFields :=
  ⟨"Acme Corp", "https://acme.example", "consulting services", "Globex Inc",
   "https://globex.example", "CTO", "", "", ""⟩

/-- C7 witness store: one report owned by `u1` with three titles, one of
them already selected. -/
def C7db : DB :=
  ⟨[⟨"r1", "u1", sampleFields, .titlesGenerated, none⟩],
   [⟨"r1", 0, "t0", false⟩, ⟨"r1", 1, "t1", true⟩, ⟨"r1", 2, "t2", false⟩],
   [], []⟩

/-- C6 witness oracles: the vendor URL crawls successfully, every other
external call raises. -/
def C6oracles : GatherOracles :=
  ⟨fun u => if u = "https://acme.example" then .ok "ACME RESEARCH" else .error "boom",
   fun _ => .error "no file", fun _ => false, fun _ => .error "no linkedin"⟩

/-- C8 witness store: one report that owns a persisted context blob. -/
def C8db : DB :=
  ⟨[⟨"r1", "u1", sampleFields, .titlesGenerated, some ⟨"STORED CONTEXT"⟩⟩],
   [], [], []⟩

/-- C9 witness store: one report whose titles 0 and 2 are selected (the
spec's scenario example), with a stale detail row to be overwritten. -/
def C9db : DB :=
  ⟨[⟨"r1", "u1", sampleFields, .titlesGenerated, some ⟨"CTX"⟩⟩],
   [⟨"r1", 0, "Reduce onboarding time", true⟩,
    ⟨"r1", 1, "Cut support costs", false⟩,
    ⟨"r1", 2, "Improve retention", true⟩],
   [⟨"r1", 0, "old", "old content"⟩], []⟩

/-- C3 counterexample store: a report already `completed`, with a selected
title, as left behind by an earlier successful Phase-2 run. -/
def C3dbCompleted : DB :=
  ⟨[⟨"r1", "u1", sampleFields, .completed, none⟩],
   [⟨"r1", 0, "t0", true⟩], [], []⟩

/-- The number of positions of `s` at which `m` occurs (all positions,
overlapping ones included): the executable form of "the marker occurs
exactly once". -/
def countOccs (m s : Str) : Nat :=
  ((List.range (s.length + 1)).filter (fun k => m.isPrefixOf (s.drop k))).length

/-! ## Claim theorems -/

/-- C1.  Positional integrity of the detail fan-out: for every input list of
K titles, the detail list returned by the fan-out of the full workflow
(`generate_pov_analysis_parallel`) and of the selective workflow
(`generate_selected_outcomes_only`) has length K, and the entry at every
position `i` is the completion produced for the prompt built from the title
at position `i` — given the `llm_call` adapter contract (one completion per
prompt, in submission order), which is the `llm_call` embedding itself. -/
theorem C1_detail_fanout_positional_integrity
    (complete : String → String)
    (background_context vendor_name target_customer_name role_names : String)
    (outcome_titles : List String) (selected_titles : List TitleRow) :
    (detailFanOutFull complete background_context vendor_name
        target_customer_name role_names outcome_titles).length
      = outcome_titles.length
    ∧ (∀ i : Nat,
        (detailFanOutFull complete background_context vendor_name
            target_customer_name role_names outcome_titles)[i]?
          = (outcome_titles[i]?).map (fun title =>
              complete (generate_single_outcome_detail_prompt background_context
                title vendor_name target_customer_name role_names)))
    ∧ (detailFanOutSelected complete background_context vendor_name
        target_customer_name role_names selected_titles).length
      = selected_titles.length
    ∧ (∀ i : Nat,
        (detailFanOutSelected complete background_context vendor_name
            target_customer_name role_names selected_titles)[i]?
          = (selected_titles[i]?).map (fun title_data =>
              complete (generate_single_outcome_detail_prompt background_context
                title_data.title vendor_name target_customer_name role_names))) := by
  refine ⟨by simp [detailFanOutFull, llm_call], fun i => ?_,
    by simp [detailFanOutSelected, llm_call], fun i => ?_⟩
  · simp [detailFanOutFull, llm_call, List.getElem?_map, Function.comp_def]
  · simp [detailFanOutSelected, llm_call, List.getElem?_map, Function.comp_def]

/-- Rows of the given report never survive the delete half of
`save_selected_outcome_details` into a later same-report query. -/
theorem filter_not_then_eq (rid : String) (l : List OutcomeRow) :
    ((l.filter (fun o => ¬ (o.report_id = rid))).filter
      (fun o => o.report_id = rid)) = [] := by
  induction l with
  | nil => rfl
  | cons x xs ih =>
    by_cases h : x.report_id = rid <;> simp [List.filter_cons, h, ih]

/-- C2 counterexample.  `save_outcome_details` (the full workflow's save
path) is insert-only: calling it twice for the same `report_id` with
different content leaves the union of both sets in the store — the query
returns the row contents `["A", "B"]`, not just the second set `["B"]` —
contradicting the claim that every save path has delete-then-insert
overwrite semantics. -/
theorem C2_counterexample :
    ((queryOutcomeDetails "r1"
        (save_outcome_details "r1" ["B"]
          (save_outcome_details "r1" ["A"] DB.empty))).map
      (fun o => o.content)) = ["A", "B"]
    ∧ ((queryOutcomeDetails "r1"
        (save_outcome_details "r1" ["B"]
          (save_outcome_details "r1" ["A"] DB.empty))).map
      (fun o => o.content)) ≠ ["B"] := by
  decide

/-- C2 amended.  The delete-then-insert overwrite semantics holds for
`save_selected_outcome_details`, the selective workflow's save path:
calling it twice for the same `report_id` with different content fully
replaces the first set, and querying the report's details afterwards
returns exactly the rows of the second call, never a union.
(`save_outcome_details`, the full workflow's path, is insert-only; the full
workflow only ever invokes it once, on a freshly created report.) -/
theorem C2_amended_selective_overwrite (rid : String) (db : DB)
    (data1 data2 : List OutcomeInput) :
    queryOutcomeDetails rid
        (save_selected_outcome_details rid data2
          (save_selected_outcome_details rid data1 db))
      = data2.map (fun item => ⟨rid, item.title_index, item.title, item.content⟩) := by
  simp [queryOutcomeDetails, save_selected_outcome_details,
    List.filter_append, filter_not_then_eq, List.filter_map, Function.comp_def]

/-- C4 counterexample.  The claim quantifies over every requested count N;
at the degenerate request N = 0 with a returned list of M = 1 > N titles,
the Title Generator does not return the first 0 titles (the empty list) —
the truncation empties the list and the generator's trailing
`if not outcome_titles` guard raises instead. -/
theorem C4_counterexample :
    validateTitles 0 (.list ["Reduce onboarding time"]) = .error .noTitles
    ∧ validateTitles 0 (.list ["Reduce onboarding time"]) ≠ .ok [] :=
  ⟨rfl, fun h => by simp [validateTitles] at h⟩

/-- C4 amended.  For every positive requested count N: a parsed JSON list
of M > N titles is truncated to exactly the first N, in order; a list of
0 < M < N titles is returned whole with no error (only a logged warning);
an empty list fails with the empty-result error; and a response that is not
a JSON list fails with the malformed-output error.  (For the degenerate
request N = 0 the generator instead always fails, per the
counterexample.) -/
theorem C4_amended_title_count_bounds (num_outcomes : Nat)
    (hpos : 1 ≤ num_outcomes) (ts : List String) :
    (ts.length > num_outcomes →
      validateTitles num_outcomes (.list ts) = .ok (ts.take num_outcomes)
        ∧ (ts.take num_outcomes).length = num_outcomes)
    ∧ (0 < ts.length ∧ ts.length < num_outcomes →
        validateTitles num_outcomes (.list ts) = .ok ts)
    ∧ (ts.length = 0 →
        validateTitles num_outcomes (.list ts) = .error .emptyResult)
    ∧ validateTitles num_outcomes .notList = .error .malformedOutput := by
  refine ⟨fun hgt => ?_, fun hlt => ?_, fun h0 => ?_, rfl⟩
  · have h1 : ¬ (ts.length < num_outcomes ∧ ts.length = 0) := by omega
    have h2 : ¬ (ts.take num_outcomes = []) := by
      rw [List.take_eq_nil_iff]
      rintro (h | h)
      · omega
      · subst h; simp at hgt
    simp only [validateTitles, h1, hgt, if_false, if_true, List.isEmpty_iff,
      decide_eq_true_eq, if_pos, if_neg, not_false_eq_true, List.length_take]
    refine ⟨by simp [h2], by omega⟩
  · obtain ⟨h0, hl⟩ := hlt
    have h1 : ¬ (ts.length < num_outcomes ∧ ts.length = 0) := by omega
    have h2 : ¬ (ts.length > num_outcomes) := by omega
    have h3 : ¬ (ts = []) := by rintro rfl; simp at h0
    simp [validateTitles, h1, h2, List.isEmpty_iff, h3]
  · have h1 : ts.length < num_outcomes ∧ ts.length = 0 := by omega
    simp [validateTitles, h1]
    omega

/-- C4 witness: the amended theorem applied at N = 2 and a 3-title list. -/
theorem C4_amended_title_count_bounds_witness :
    validateTitles 2 (.list ["a", "b", "c"]) = .ok ["a", "b"] :=
  ((C4_amended_title_count_bounds 2 (by decide) ["a", "b", "c"]).1
    (by decide)).1

/-- The `selected := True` update loop of `update_selected_titles`,
accumulated: a row ends selected exactly when some index of the list
matched it. -/
theorem foldl_select_eq (rid : String) (indices : List Nat) (l : List TitleRow) :
    indices.foldl
      (fun acc idx =>
        acc.map (fun t =>
          if t.report_id = rid ∧ t.title_index = idx then { t with selected := true }
          else t))
      l
    = l.map (fun t =>
        if t.report_id = rid ∧ t.title_index ∈ indices then { t with selected := true }
        else t) := by
  induction indices generalizing l with
  | nil => simp
  | cons i is ih =>
    rw [List.foldl_cons, ih, List.map_map]
    refine congrArg (l.map ·) (funext fun t => ?_)
    by_cases h1 : t.report_id = rid
    · by_cases h2 : t.title_index = i
      · simp [Function.comp, h1, h2]
      · by_cases h3 : t.title_index ∈ is <;>
          simp [Function.comp, h1, h2, h3, List.mem_cons]
    · simp [Function.comp, h1]

/-- Resetting every row of the report to unselected and then running the
selection loop amounts to setting `selected` from scratch to membership of
the row's `title_index` in the index list: the update is a full reset, not
an additive toggle. -/
theorem reset_then_select (rid : String) (indices : List Nat) (l : List TitleRow) :
    ((l.map (fun t => if t.report_id = rid then { t with selected := false } else t)).map
      (fun t =>
        if t.report_id = rid ∧ t.title_index ∈ indices then { t with selected := true }
        else t))
    = l.map (fun t =>
        if t.report_id = rid then
          { t with selected := decide (t.title_index ∈ indices) }
        else t) := by
  rw [List.map_map]
  induction l with
  | nil => rfl
  | cons x xs ih =>
    rw [List.map_cons, List.map_cons, ih]
    congr 1
    by_cases h1 : x.report_id = rid
    · by_cases h2 : x.title_index ∈ indices <;> simp [Function.comp, h1, h2]
    · simp [Function.comp, h1]

/-- C7.  Phase 1 persists every title with `selected = false` and
`title_index` equal to its zero-based position; a subsequent
`update_selected_titles` call by the report's owner performs a full reset —
afterwards a title row of the report is selected exactly when its
`title_index` appears in the supplied index list, independent of its prior
selection — while rows of other reports and the other tables are untouched;
and a caller who does not own the report gets the raised error, with no
mutation (the ownership check precedes every write, so the store the caller
holds is unchanged). -/
theorem C7_selection_step (rid uid : String) (titles : List String)
    (indices : List Nat) (db : DB) :
    (∀ i : Nat,
      ((save_outcome_titles rid titles db).outcome_titles.drop
          db.outcome_titles.length)[i]?
        = (titles[i]?).map (fun title => ⟨rid, i, title, false⟩))
    ∧ (db.reports.any (fun r => r.id = rid ∧ r.user_id = uid) = true →
        ∃ db', update_selected_titles rid uid indices db = .ok db'
          ∧ db'.outcome_titles = db.outcome_titles.map (fun t =>
              if t.report_id = rid then
                { t with selected := decide (t.title_index ∈ indices) }
              else t)
          ∧ (∀ t ∈ db'.outcome_titles, t.report_id = rid →
              (t.selected = true ↔ t.title_index ∈ indices))
          ∧ (∀ t ∈ db'.outcome_titles, ¬ t.report_id = rid →
              t ∈ db.outcome_titles)
          ∧ db'.reports = db.reports ∧ db'.outcomes = db.outcomes
          ∧ db'.summaries = db.summaries)
    ∧ (db.reports.any (fun r => r.id = rid ∧ r.user_id = uid) = false →
        update_selected_titles rid uid indices db
          = .error "Report not found or access denied") := by
  refine ⟨fun i => ?_, fun howner => ?_, fun hother => ?_⟩
  · show ((db.outcome_titles ++ _).drop db.outcome_titles.length)[i]? = _
    rw [List.drop_left]
    simp [List.getElem?_map, List.getElem?_enum, Option.map_map, Function.comp_def]
  · have hmain : update_selected_titles rid uid indices db
        = .ok { db with outcome_titles := db.outcome_titles.map (fun t =>
            if t.report_id = rid then
              { t with selected := decide (t.title_index ∈ indices) }
            else t) } := by
      simp only [update_selected_titles, howner, if_true, foldl_select_eq,
        reset_then_select]
    refine ⟨_, hmain, rfl, fun t ht hrep => ?_, fun t ht hrep => ?_, rfl, rfl, rfl⟩
    · obtain ⟨s, hs, rfl⟩ := List.mem_map.mp ht
      by_cases h1 : s.report_id = rid
      · by_cases h2 : s.title_index ∈ indices <;> simp [h1, h2]
      · rw [if_neg h1] at hrep ⊢
        exact absurd hrep h1
    · obtain ⟨s, hs, rfl⟩ := List.mem_map.mp ht
      by_cases h1 : s.report_id = rid
      · rw [if_pos h1] at hrep
        exact absurd h1 hrep
      · rwa [if_neg h1]
  · have h : ¬ ((db.reports.any fun r => decide (r.id = rid ∧ r.user_id = uid)) = true) := by
      rw [hother]
      exact Bool.false_ne_true
    simp only [update_selected_titles, if_neg h]

/-- C10.  Every detail row inserted by `save_outcome_details` (the full
workflow's save path) has `outcome_index` equal to its position i in the
supplied list and `title` equal to the fixed placeholder string
`"Outcome {i+1}"`, regardless of the actual generated outcome title — the
real title text lives only in the `pov_outcome_titles` table. -/
theorem C10_full_workflow_placeholder_titles (rid : String)
    (outcomes : List String) (db : DB) :
    (save_outcome_details rid outcomes db).outcomes.length
      = db.outcomes.length + outcomes.length
    ∧ ∀ i : Nat,
      ((save_outcome_details rid outcomes db).outcomes.drop
          db.outcomes.length)[i]?
        = (outcomes[i]?).map (fun content =>
            ⟨rid, i, "Outcome " ++ Nat.repr (i + 1), content⟩) := by
  constructor
  · simp [save_outcome_details]
  · intro i
    show ((db.outcomes ++ _).drop db.outcomes.length)[i]? = _
    rw [List.drop_left]
    simp [List.getElem?_map, List.getElem?_enum, Option.map_map, Function.comp_def]

/-- C7 witness: the selection-step theorem applied by the owner of `C7db`'s
report with indices `[0, 2]`. -/
theorem C7_selection_step_witness :
    ∃ db', update_selected_titles "r1" "u1" [0, 2] C7db = .ok db'
      ∧ ∀ t ∈ db'.outcome_titles, t.report_id = "r1" →
          (t.selected = true ↔ t.title_index ∈ [0, 2]) := by
  obtain ⟨db', h1, _, h3, _⟩ :=
    (C7_selection_step "r1" "u1" ["t0"] [0, 2] C7db).2.1 (by decide)
  exact ⟨db', h1, h3⟩

/-- A fold step for an entry with index ≥ 2 never touches the vendor- or
customer-research buckets. -/
theorem gatherStep_preserve (customer_files_start : Nat)
    (linkedin_idx : Option Nat) (total : Nat) (acc : GatherAcc)
    (p : Nat × FetchResult) (h2 : 2 ≤ p.1) :
    (gatherStep customer_files_start linkedin_idx total acc p).vendor_research
        = acc.vendor_research
    ∧ (gatherStep customer_files_start linkedin_idx total acc p).customer_research
        = acc.customer_research := by
  rcases p with ⟨i, r⟩
  cases r with
  | success d =>
    simp only [gatherStep]
    constructor <;> { split_ifs <;> first | rfl | omega }
  | skipped reason => exact ⟨rfl, rfl⟩
  | error reason => exact ⟨rfl, rfl⟩

/-- Folding the extraction step over entries with indices ≥ 2 (the file and
LinkedIn tasks) preserves the two research buckets. -/
theorem foldl_gatherStep_preserve (customer_files_start : Nat)
    (linkedin_idx : Option Nat) (total : Nat)
    (rest : List (Nat × FetchResult)) (h : ∀ p ∈ rest, 2 ≤ p.1)
    (acc : GatherAcc) :
    ((rest.foldl (gatherStep customer_files_start linkedin_idx total)
        acc).vendor_research = acc.vendor_research)
    ∧ ((rest.foldl (gatherStep customer_files_start linkedin_idx total)
        acc).customer_research = acc.customer_research) := by
  induction rest generalizing acc with
  | nil => exact ⟨rfl, rfl⟩
  | cons p ps ih =>
    rw [List.foldl_cons]
    obtain ⟨hv, hc⟩ := ih (fun q hq => h q (List.mem_cons_of_mem _ hq))
      (gatherStep customer_files_start linkedin_idx total acc p)
    obtain ⟨hv2, hc2⟩ := gatherStep_preserve customer_files_start linkedin_idx
      total acc p (h p (List.mem_cons_self _ _))
    exact ⟨hv.trans hv2, hc.trans hc2⟩

/-- When the vendor crawl succeeds and the customer crawl raises, the
extraction yields exactly the vendor payload and no customer payload: the
customer-task failure aborts neither the vendor task nor any later task. -/
theorem extract_vendor_ok_customer_failed (o : GatherOracles)
    (vendor_url target_customer_url : String)
    (vendor_files customer_files : List String) (linkedin_urls : String)
    (d e : String)
    (hv : o.crawl vendor_url = .ok d)
    (hc : o.crawl target_customer_url = .error e)
    (hvu : vendor_url.data.all isPySpace = false)
    (hcu : target_customer_url.data.all isPySpace = false)
    (customer_files_start : Nat) (linkedin_idx : Option Nat) (total : Nat) :
    ((extractGather (gatherResults o vendor_url target_customer_url
        vendor_files customer_files linkedin_urls) customer_files_start
        linkedin_idx total).vendor_research = some d)
    ∧ ((extractGather (gatherResults o vendor_url target_customer_url
        vendor_files customer_files linkedin_urls) customer_files_start
        linkedin_idx total).customer_research = none) := by
  have h1 : process_research o.crawl vendor_url "vendor" = .success d := by
    simp [process_research, hvu, hv]
  have h2 : process_research o.crawl target_customer_url "customer"
      = .error ("Error analyzing customer: " ++ e) := by
    simp [process_research, hcu, hc]
  have hres : gatherResults o vendor_url target_customer_url vendor_files
      customer_files linkedin_urls
      = FetchResult.success d
        :: FetchResult.error ("Error analyzing customer: " ++ e)
        :: (vendor_files.map (process_file_content o.read_file o.path_exists)
            ++ customer_files.map (process_file_content o.read_file o.path_exists)
            ++ (if linkedin_urls.isEmpty then []
                else [process_linkedin_profiles o.fetch_linkedin linkedin_urls])) := by
    simp [gatherResults, h1, h2]
  simp only [extractGather, hres, List.enum_cons, List.enumFrom_cons,
    List.foldl_cons]
  have hstep : gatherStep customer_files_start linkedin_idx total
      (gatherStep customer_files_start linkedin_idx total
        ⟨none, none, [], [], none⟩ (0, .success d))
      (1, .error ("Error analyzing customer: " ++ e))
      = ⟨some d, none, [], [], none⟩ := by
    simp [gatherStep]
  rw [hstep]
  exact foldl_gatherStep_preserve customer_files_start linkedin_idx total _
    (fun p hp => by rcases p with ⟨i, x⟩; exact (List.mem_enumFrom hp).1) _

/-- The assembled background context embeds the vendor research payload
verbatim and carries the fixed "Not available" placeholder directly after
the customer-research section header whenever the extraction produced a
(non-empty, hence Python-truthy) vendor payload and no customer payload. -/
theorem build_context_embeds (vendor_name vendor_url vendor_services
    target_customer_name target_customer_url roles_sold_to linkedin_urls
    role_names role_context additional_context : String) (acc : GatherAcc)
    (g : String) (d : String) (hvr : acc.vendor_research = some d)
    (hd : d ≠ "") (hcr : acc.customer_research = none) :
    (∃ x y, buildBackgroundContext vendor_name vendor_url vendor_services
        target_customer_name target_customer_url roles_sold_to linkedin_urls
        role_names role_context additional_context acc g = x ++ d ++ y)
    ∧ (∃ x y, buildBackgroundContext vendor_name vendor_url vendor_services
        target_customer_name target_customer_url roles_sold_to linkedin_urls
        role_names role_context additional_context acc g
        = x ++ ("\nCustomer Research: " ++ "Not available") ++ y) := by
  constructor
  · refine ⟨"\nvendor_name: " ++ vendor_name ++ "\nvendor_url: " ++ vendor_url
      ++ "\nvendor_services: " ++ vendor_services
      ++ "\ntarget_customer_name: " ++ target_customer_name
      ++ "\ntarget_customer_url: " ++ target_customer_url
      ++ "\nroles_sold_to: " ++ roles_sold_to
      ++ "\nlinkedin_urls: " ++ linkedin_urls
      ++ "\nrole_names: " ++ role_names
      ++ "\nrole_context: " ++ role_context
      ++ "\nadditional_context: " ++ additional_context
      ++ "\n\nVendor Research: ",
      "\nCustomer Research: " ++ "Not available"
      ++ "\n\nVendor Document Analysis: "
      ++ (if acc.vendor_file_content.isEmpty then "No documents provided"
          else dumpsDocs acc.vendor_file_content)
      ++ "\nCustomer Document Analysis: "
      ++ (if acc.customer_file_content.isEmpty then "No documents provided"
          else dumpsDocs acc.customer_file_content)
      ++ "\n\nLinkedIn Profiles Analysis: "
      ++ pyOptStr "Not available or not requested" acc.linkedin_profiles_data
      ++ g ++ "\n", ?_⟩
    have hv' : pyOptStr "Not available" acc.vendor_research = d := by
      rw [hvr]
      simp [pyOptStr, String.isEmpty_iff, hd]
    have hc' : pyOptStr "Not available" acc.customer_research = "Not available" := by
      rw [hcr]
      rfl
    simp only [buildBackgroundContext, hv', hc', String.append_assoc]
  · refine ⟨"\nvendor_name: " ++ vendor_name ++ "\nvendor_url: " ++ vendor_url
      ++ "\nvendor_services: " ++ vendor_services
      ++ "\ntarget_customer_name: " ++ target_customer_name
      ++ "\ntarget_customer_url: " ++ target_customer_url
      ++ "\nroles_sold_to: " ++ roles_sold_to
      ++ "\nlinkedin_urls: " ++ linkedin_urls
      ++ "\nrole_names: " ++ role_names
      ++ "\nrole_context: " ++ role_context
      ++ "\nadditional_context: " ++ additional_context
      ++ "\n\nVendor Research: " ++ d,
      "\n\nVendor Document Analysis: "
      ++ (if acc.vendor_file_content.isEmpty then "No documents provided"
          else dumpsDocs acc.vendor_file_content)
      ++ "\nCustomer Document Analysis: "
      ++ (if acc.customer_file_content.isEmpty then "No documents provided"
          else dumpsDocs acc.customer_file_content)
      ++ "\n\nLinkedIn Profiles Analysis: "
      ++ pyOptStr "Not available or not requested" acc.linkedin_profiles_data
      ++ g ++ "\n", ?_⟩
    have hv' : pyOptStr "Not available" acc.vendor_research = d := by
      rw [hvr]
      simp [pyOptStr, String.isEmpty_iff, hd]
    have hc' : pyOptStr "Not available" acc.customer_research = "Not available" := by
      rw [hcr]
      rfl
    simp only [buildBackgroundContext, hv', hc', String.append_assoc]

/-- C6.  Context-gathering resilience: in every gather call whose
customer-research sub-task fails (its crawl raises) while the
vendor-research sub-task succeeds with a (truthy, i.e. non-empty) payload,
the extraction keeps exactly the vendor payload and no customer payload —
the customer failure aborts neither the vendor task nor any later task —
and the assembled background context embeds the vendor research data and
the deterministic "Not available" placeholder right after the
customer-research section header.  The gather call itself cannot raise:
`gatherBackgroundContext` and every `process_*` sub-task are total, each
sub-task converting its own exceptions into an `error` result. -/
theorem C6_context_gather_resilience (o : GatherOracles)
    (vendor_name vendor_url vendor_services target_customer_name
     target_customer_url roles_sold_to linkedin_urls role_names role_context
     additional_context : String)
    (vendor_files customer_files : List String) (d e : String)
    (hv : o.crawl vendor_url = .ok d) (hd : d ≠ "")
    (hc : o.crawl target_customer_url = .error e)
    (hvu : vendor_url.data.all isPySpace = false)
    (hcu : target_customer_url.data.all isPySpace = false) :
    ((extractGather (gatherResults o vendor_url target_customer_url
        vendor_files customer_files linkedin_urls) (2 + vendor_files.length)
        (if linkedin_urls.isEmpty then none
         else some (2 + vendor_files.length + customer_files.length))
        (gatherResults o vendor_url target_customer_url vendor_files
          customer_files linkedin_urls).length).vendor_research = some d)
    ∧ ((extractGather (gatherResults o vendor_url target_customer_url
        vendor_files customer_files linkedin_urls) (2 + vendor_files.length)
        (if linkedin_urls.isEmpty then none
         else some (2 + vendor_files.length + customer_files.length))
        (gatherResults o vendor_url target_customer_url vendor_files
          customer_files linkedin_urls).length).customer_research = none)
    ∧ (∃ x y, gatherBackgroundContext o vendor_name vendor_url vendor_services
        target_customer_name target_customer_url roles_sold_to linkedin_urls
        role_names role_context additional_context vendor_files customer_files ""
        = x ++ d ++ y)
    ∧ (∃ x y, gatherBackgroundContext o vendor_name vendor_url vendor_services
        target_customer_name target_customer_url roles_sold_to linkedin_urls
        role_names role_context additional_context vendor_files customer_files ""
        = x ++ ("\nCustomer Research: " ++ "Not available") ++ y) := by
  obtain ⟨ha, hb⟩ := extract_vendor_ok_customer_failed o vendor_url
    target_customer_url vendor_files customer_files linkedin_urls d e hv hc
    hvu hcu (2 + vendor_files.length)
    (if linkedin_urls.isEmpty then none
     else some (2 + vendor_files.length + customer_files.length))
    (gatherResults o vendor_url target_customer_url vendor_files
      customer_files linkedin_urls).length
  obtain ⟨hx, hy⟩ := build_context_embeds vendor_name vendor_url
    vendor_services target_customer_name target_customer_url roles_sold_to
    linkedin_urls role_names role_context additional_context _ "" d ha hd hb
  exact ⟨ha, hb, hx, hy⟩

/-- C6 witness: the resilience theorem applied at concrete oracles whose
customer crawl raises — the assembled context still embeds the vendor
payload. -/
theorem C6_context_gather_resilience_witness :
    ∃ x y, gatherBackgroundContext C6oracles "Acme Corp" "https://acme.example"
        "consulting services" "Globex Inc" "https://globex.example" "CTO" ""
        "CTO" "" "" [] [] ""
      = x ++ "ACME RESEARCH" ++ y :=
  (C6_context_gather_resilience C6oracles "Acme Corp" "https://acme.example"
    "consulting services" "Globex Inc" "https://globex.example" "CTO" ""
    "CTO" "" "" [] [] "ACME RESEARCH" "boom" rfl (by decide) rfl (by decide)
    (by decide)).2.2.1

/-- C8.  Phase-2 context reuse with fallback:
`generate_selected_outcomes_only` first loads the persisted context of the
report via `get_context_data` and, exactly when that load succeeds, uses
its stored `background_context` without re-gathering — the result is
independent of every gather oracle — building both the detail prompts and
the summary prompt from the stored context.  Exactly when the load fails
(report missing, not owned, or no context stored), it falls back to
re-running the full context gather (with the Grok block appended when
present), and both prompts are built from the re-gathered background
context. -/
theorem C8_context_reuse_with_fallback (complete : String → String)
    (o o' : GatherOracles) (db : DB) (report_id user_id : String)
    (selected_titles : List TitleRow)
    (vendor_name vendor_url vendor_services target_customer_name
     target_customer_url roles_sold_to linkedin_urls role_names role_context
     additional_context : String)
    (vendor_files customer_files : List String)
    (grok_research : Option String) :
    (∀ ctx, get_context_data report_id user_id db = .ok ctx →
      generate_selected_outcomes_only complete o db report_id user_id
          selected_titles vendor_name vendor_url vendor_services
          target_customer_name target_customer_url roles_sold_to linkedin_urls
          role_names role_context additional_context vendor_files
          customer_files grok_research
        = generate_selected_outcomes_only complete o' db report_id user_id
            selected_titles vendor_name vendor_url vendor_services
            target_customer_name target_customer_url roles_sold_to
            linkedin_urls role_names role_context additional_context
            vendor_files customer_files grok_research
      ∧ (generate_selected_outcomes_only complete o db report_id user_id
          selected_titles vendor_name vendor_url vendor_services
          target_customer_name target_customer_url roles_sold_to linkedin_urls
          role_names role_context additional_context vendor_files
          customer_files grok_research).outcomes
        = selected_titles.map (fun title_data => complete
            (generate_single_outcome_detail_prompt ctx.background_context
              title_data.title vendor_name target_customer_name role_names))
      ∧ (generate_selected_outcomes_only complete o db report_id user_id
          selected_titles vendor_name vendor_url vendor_services
          target_customer_name target_customer_url roles_sold_to linkedin_urls
          role_names role_context additional_context vendor_files
          customer_files grok_research).summary
        = complete (generate_summary_takeaways_prompt ctx.background_context
            vendor_name target_customer_name role_names
            selected_titles.length))
    ∧ (∀ msg, get_context_data report_id user_id db = .error msg →
      (generate_selected_outcomes_only complete o db report_id user_id
          selected_titles vendor_name vendor_url vendor_services
          target_customer_name target_customer_url roles_sold_to linkedin_urls
          role_names role_context additional_context vendor_files
          customer_files grok_research).outcomes
        = selected_titles.map (fun title_data => complete
            (generate_single_outcome_detail_prompt
              (gatherBackgroundContext o vendor_name vendor_url vendor_services
                target_customer_name target_customer_url roles_sold_to
                linkedin_urls role_names role_context additional_context
                vendor_files customer_files (grokContextBlock grok_research))
              title_data.title vendor_name target_customer_name role_names))
      ∧ (generate_selected_outcomes_only complete o db report_id user_id
          selected_titles vendor_name vendor_url vendor_services
          target_customer_name target_customer_url roles_sold_to linkedin_urls
          role_names role_context additional_context vendor_files
          customer_files grok_research).summary
        = complete (generate_summary_takeaways_prompt
            (gatherBackgroundContext o vendor_name vendor_url vendor_services
              target_customer_name target_customer_url roles_sold_to
              linkedin_urls role_names role_context additional_context
              vendor_files customer_files (grokContextBlock grok_research))
            vendor_name target_customer_name role_names
            selected_titles.length)) := by
  constructor
  · intro ctx hctx
    refine ⟨?_, ?_, ?_⟩ <;>
      simp [generate_selected_outcomes_only, hctx, detailFanOutSelected,
        llm_call]
  · intro msg hmsg
    refine ⟨?_, ?_⟩ <;>
      simp [generate_selected_outcomes_only, hmsg, detailFanOutSelected,
        llm_call]

/-- C8 witness: with a stored context present, the summary prompt of
Phase 2 is built from the stored background context (the completion
function is the identity, so the summary is the prompt itself). -/
theorem C8_context_reuse_with_fallback_witness :
    (generate_selected_outcomes_only (fun p => p) C6oracles C8db "r1" "u1"
        [⟨"r1", 0, "t0", true⟩] "Acme Corp" "https://acme.example"
        "consulting services" "Globex Inc" "https://globex.example" "CTO" ""
        "CTO" "" "" [] [] none).summary
      = generate_summary_takeaways_prompt "STORED CONTEXT" "Acme Corp"
          "Globex Inc" "CTO" 1 :=
  ((C8_context_reuse_with_fallback (fun p => p) C6oracles C6oracles C8db
    "r1" "u1" [⟨"r1", 0, "t0", true⟩] "Acme Corp" "https://acme.example"
    "consulting services" "Globex Inc" "https://globex.example" "CTO" ""
    "CTO" "" "" [] [] none).1 ⟨"STORED CONTEXT"⟩ rfl).2.2

/-- The query of a report's details directly after a
`save_selected_outcome_details` call returns exactly the saved rows. -/
theorem query_selected_save (rid : String) (data : List OutcomeInput) (db : DB) :
    queryOutcomeDetails rid (save_selected_outcome_details rid data db)
      = data.map (fun item => ⟨rid, item.title_index, item.title, item.content⟩) := by
  simp [queryOutcomeDetails, save_selected_outcome_details, List.filter_append,
    filter_not_then_eq, List.filter_map, Function.comp_def]

/-- C9.  Details persisted by the selective workflow keep their original
title indices: after a successful Phase-2 run, the detail rows stored for
the report carry, position for position, the `title_index` values (and the
title texts) of the selected titles — e.g. selecting titles 0 and 2 stores
rows with `outcome_index` 0 and 2, not a renumbered 0..K-1 sequence — so
stored details re-join stored titles by index. -/
theorem C9_selective_details_keep_title_indices (complete : String → String)
    (o : GatherOracles) (rid uid : String) (grok_research : Option String)
    (db : DB) (report : ReportRow) (selected_titles : List TitleRow)
    (hrep : db.reports.find? (fun r => r.id = rid ∧ r.user_id = uid)
      = some report)
    (hsel : get_selected_titles rid uid db = .ok selected_titles)
    (hne : selected_titles ≠ []) :
    ((queryOutcomeDetails rid
        ((phase2Run none complete o rid uid grok_research db).db)).map
      (fun r => r.outcome_index))
      = selected_titles.map (fun t => t.title_index)
    ∧ ((queryOutcomeDetails rid
        ((phase2Run none complete o rid uid grok_research db).db)).map
      (fun r => r.title))
      = selected_titles.map (fun t => t.title)
    ∧ (queryOutcomeDetails rid
        ((phase2Run none complete o rid uid grok_research db).db)).length
      = selected_titles.length := by
  have hne' : selected_titles.isEmpty = false := by
    simp [List.isEmpty_iff, hne]
  have hlen : (generate_selected_outcomes_only complete o db rid uid
      selected_titles report.fields.vendor_name report.fields.vendor_url
      report.fields.vendor_services report.fields.target_customer_name
      report.fields.target_customer_url report.fields.role_names
      report.fields.linkedin_urls report.fields.role_names
      report.fields.role_context report.fields.additional_context
      [] [] grok_research).outcomes.length = selected_titles.length := by
    simp [generate_selected_outcomes_only, detailFanOutSelected, llm_call]
  have hq : queryOutcomeDetails rid
      ((phase2Run none complete o rid uid grok_research db).db)
      = ((selected_titles.zip (generate_selected_outcomes_only complete o db
          rid uid selected_titles report.fields.vendor_name
          report.fields.vendor_url report.fields.vendor_services
          report.fields.target_customer_name report.fields.target_customer_url
          report.fields.role_names report.fields.linkedin_urls
          report.fields.role_names report.fields.role_context
          report.fields.additional_context [] [] grok_research).outcomes).map
        (fun p : TitleRow × String =>
          (⟨p.1.title_index, p.1.title, p.2⟩ : OutcomeInput))).map
        (fun item : OutcomeInput =>
          (⟨rid, item.title_index, item.title, item.content⟩ : OutcomeRow)) := by
    simp only [phase2Run, hrep, hsel, hne', Bool.false_eq_true, if_false,
      buildOutcomesData, hlen, le_refl, if_true, reduceCtorEq]
    exact query_selected_save rid _ _
  obtain ⟨outs, houts, hleno⟩ :
      ∃ outs, (generate_selected_outcomes_only complete o db rid uid
        selected_titles report.fields.vendor_name report.fields.vendor_url
        report.fields.vendor_services report.fields.target_customer_name
        report.fields.target_customer_url report.fields.role_names
        report.fields.linkedin_urls report.fields.role_names
        report.fields.role_context report.fields.additional_context
        [] [] grok_research).outcomes = outs
        ∧ selected_titles.length ≤ outs.length := ⟨_, rfl, by rw [hlen]⟩
  rw [houts] at hq
  rw [hq]
  have hfst := List.map_fst_zip selected_titles outs hleno
  refine ⟨?_, ?_, ?_⟩ <;>
    simp only [List.map_map, Function.comp_def, List.length_map]
  · have h1 : ((selected_titles.zip outs).map (fun p => p.1.title_index))
        = ((selected_titles.zip outs).map Prod.fst).map
            (fun t => t.title_index) := by
      rw [List.map_map]
      rfl
    rw [h1, hfst]
  · have h1 : ((selected_titles.zip outs).map (fun p => p.1.title))
        = ((selected_titles.zip outs).map Prod.fst).map (fun t => t.title) := by
      rw [List.map_map]
      rfl
    rw [h1, hfst]
  · rw [List.length_zip]
    omega

/-- C9 witness: running Phase 2 on `C9db` stores detail rows with
`outcome_index` 0 and 2 — the original title indices, not 0 and 1. -/
theorem C9_selective_details_keep_title_indices_witness :
    ((queryOutcomeDetails "r1"
        ((phase2Run none (fun _ => "detail") C6oracles "r1" "u1" none
          C9db).db)).map (fun r => r.outcome_index)) = [0, 2] :=
  (C9_selective_details_keep_title_indices (fun _ => "detail") C6oracles
    "r1" "u1" none C9db
    ⟨"r1", "u1", sampleFields, .titlesGenerated, some ⟨"CTX"⟩⟩
    [⟨"r1", 0, "Reduce onboarding time", true⟩,
     ⟨"r1", 2, "Improve retention", true⟩]
    rfl rfl (by decide)).1

/-- Finding a report after a status update: as soon as some row carries the
id, the row the query returns carries the written status. -/
theorem find_status_update (rid : String) (st : Status) (l : List ReportRow)
    (h : ∃ r ∈ l, r.id = rid) :
    ((l.map (fun r => if r.id = rid then { r with status := st } else r)).find?
      (fun r => r.id = rid)).map (fun r => r.status) = some st := by
  induction l with
  | nil => simp at h
  | cons x xs ih =>
    by_cases hx : x.id = rid
    · simp [hx, List.find?_cons]
    · obtain ⟨r, hr, hid⟩ := h
      rcases List.mem_cons.mp hr with rfl | hr2
      · exact absurd hid hx
      · simp only [List.map_cons, if_neg hx, List.find?_cons, hx,
          decide_eq_true_eq, if_neg]
        simpa [hx] using ih ⟨r, hr2, hid⟩

/-- `update_report_status` drives the status every later query of the
report sees, as soon as some row with the id exists. -/
theorem reportStatus_update (rid : String) (st : Status) (db : DB)
    (h : ∃ r ∈ db.reports, r.id = rid) :
    reportStatus rid (update_report_status rid st db) = some st :=
  find_status_update rid st db.reports h

/-- The except-handler leaves the report `failed` and `failed` last in the
write log. -/
theorem reportStatus_failRun (rid : String) (db : DB) (w : List Status)
    (h : ∃ r ∈ db.reports, r.id = rid) :
    reportStatus rid ((failRun rid db w).db) = some .failed
    ∧ (failRun rid db w).statusWrites.getLast? = some Status.failed := by
  exact ⟨reportStatus_update rid .failed db h, by simp [failRun]⟩

/-- The report row just created by `create_pov_report` exists. -/
theorem exists_id_create (rid uid : String) (fl : ReportFields) (db : DB) :
    ∃ r ∈ (create_pov_report rid uid fl db).reports, r.id = rid :=
  ⟨⟨rid, uid, fl, .processing, none⟩, by simp [create_pov_report], rfl⟩

/-- `save_context_data` keeps every report id in the table. -/
theorem exists_id_save_context (rid rid2 : String) (ctx : ContextData)
    (db : DB) (h : ∃ r ∈ db.reports, r.id = rid) :
    ∃ r ∈ (save_context_data rid2 ctx db).reports, r.id = rid := by
  obtain ⟨r, hr, hid⟩ := h
  refine ⟨if r.id = rid2 then { r with context_data := some ctx } else r,
    List.mem_map_of_mem _ hr, ?_⟩
  by_cases hc : r.id = rid2
  · rw [if_pos hc]; exact hid
  · rw [if_neg hc]; exact hid

/-- `update_report_status` keeps every report id in the table. -/
theorem exists_id_update (rid rid2 : String) (st : Status) (db : DB)
    (h : ∃ r ∈ db.reports, r.id = rid) :
    ∃ r ∈ (update_report_status rid2 st db).reports, r.id = rid := by
  obtain ⟨r, hr, hid⟩ := h
  refine ⟨if r.id = rid2 then { r with status := st } else r,
    List.mem_map_of_mem _ hr, ?_⟩
  by_cases hc : r.id = rid2
  · rw [if_pos hc]; exact hid
  · rw [if_neg hc]; exact hid

/-- C3 counterexample.  (a) The full workflow drives a report from
`processing` straight to `completed`: its status writes are exactly
`[processing, completed]` and `titles_generated` is never among them — so a
report can reach `completed` without ever being in `titles_generated`.
(b) `completed` is not terminal: re-running Phase 2 on a completed report
(which the endpoint permits — it checks only ownership and a non-empty
selection) with a failing generation step drives the report to `failed`. -/
theorem C3_counterexample :
    ((fullRun none "r1" "u1" sampleFields ["t1"] ["d1"] "sum"
        DB.empty).statusWrites = [Status.processing, Status.completed]
      ∧ Status.titlesGenerated ∉ (fullRun none "r1" "u1" sampleFields ["t1"]
          ["d1"] "sum" DB.empty).statusWrites)
    ∧ (reportStatus "r1" C3dbCompleted = some Status.completed
      ∧ reportStatus "r1" ((phase2Run (some .genOutcomes) (fun _ => "x")
          C6oracles "r1" "u1" none C3dbCompleted).db) = some Status.failed) := by
  refine ⟨⟨by decide, by decide⟩, by decide, by decide⟩

/-- C3 amended.  The status state machine actually implemented by the three
generation endpoints: (1) any exception injected into the guarded body of
Phase 1 drives the report to `failed` — the run never ends with the report
in `titles_generated`, and `failed` is the last status written; (2) a
successful Phase 1 ends in `titles_generated` with writes
`[processing, titles_generated]`; (3) any exception injected into the
guarded body of the full workflow drives the report to `failed`; (4) a
successful full workflow drives the report from `processing` straight to
`completed`, never writing `titles_generated` — so only the selective
workflow passes through `titles_generated`; (5) for a report that passes
the Phase-2 preconditions (owned, non-empty selection), any exception
injected into the guarded body of Phase 2 drives it to `failed` — the run
never ends with it in `completed`; (6) a successful Phase 2 ends in
`completed`, whatever the report's previous status — `completed` and
`failed` are therefore not terminal, since Phase 2 may be re-run (see the
counterexample). -/
theorem C3_amended_status_machine :
    (∀ (f : P1Step) (rid uid : String) (fl : ReportFields)
        (titles : List String) (ctx : ContextData) (db : DB),
      reportStatus rid ((phase1Run (some f) rid uid fl titles ctx db).db)
          = some .failed
        ∧ (phase1Run (some f) rid uid fl titles ctx db).statusWrites.getLast?
          = some Status.failed)
    ∧ (∀ (rid uid : String) (fl : ReportFields) (titles : List String)
        (ctx : ContextData) (db : DB),
      reportStatus rid ((phase1Run none rid uid fl titles ctx db).db)
          = some .titlesGenerated
        ∧ (phase1Run none rid uid fl titles ctx db).statusWrites
          = [Status.processing, Status.titlesGenerated])
    ∧ (∀ (f : FullStep) (rid uid : String) (fl : ReportFields)
        (titles details : List String) (summary : String) (db : DB),
      reportStatus rid
          ((fullRun (some f) rid uid fl titles details summary db).db)
          = some .failed
        ∧ (fullRun (some f) rid uid fl titles details summary
            db).statusWrites.getLast? = some Status.failed)
    ∧ (∀ (rid uid : String) (fl : ReportFields) (titles details : List String)
        (summary : String) (db : DB),
      reportStatus rid ((fullRun none rid uid fl titles details summary db).db)
          = some .completed
        ∧ (fullRun none rid uid fl titles details summary db).statusWrites
          = [Status.processing, Status.completed]
        ∧ Status.titlesGenerated ∉
            (fullRun none rid uid fl titles details summary db).statusWrites)
    ∧ (∀ (f : P2Step) (complete : String → String) (o : GatherOracles)
        (rid uid : String) (grok : Option String) (db : DB)
        (report : ReportRow) (selected : List TitleRow),
      db.reports.find? (fun r => r.id = rid ∧ r.user_id = uid) = some report →
      get_selected_titles rid uid db = .ok selected → selected ≠ [] →
      reportStatus rid ((phase2Run (some f) complete o rid uid grok db).db)
        = some .failed)
    ∧ (∀ (complete : String → String) (o : GatherOracles) (rid uid : String)
        (grok : Option String) (db : DB) (report : ReportRow)
        (selected : List TitleRow),
      db.reports.find? (fun r => r.id = rid ∧ r.user_id = uid) = some report →
      get_selected_titles rid uid db = .ok selected → selected ≠ [] →
      reportStatus rid ((phase2Run none complete o rid uid grok db).db)
          = some .completed
        ∧ (phase2Run none complete o rid uid grok db).statusWrites
          = [Status.completed]) := by
  refine ⟨?_, ?_, ?_, ?_, ?_, ?_⟩
  · intro f rid uid fl titles ctx db
    cases f with
    | genTitles => exact reportStatus_failRun rid _ _ (exists_id_create rid uid fl db)
    | saveTitles => exact reportStatus_failRun rid _ _ (exists_id_create rid uid fl db)
    | saveGrok => exact reportStatus_failRun rid _ _ (exists_id_create rid uid fl db)
    | saveContext => exact reportStatus_failRun rid _ _ (exists_id_create rid uid fl db)
    | setStatus =>
      exact reportStatus_failRun rid _ _
        (exists_id_save_context rid rid ctx _ (exists_id_create rid uid fl db))
    | incrCount =>
      exact reportStatus_failRun rid _ _
        (exists_id_update rid rid .titlesGenerated _
          (exists_id_save_context rid rid ctx _ (exists_id_create rid uid fl db)))
  · intro rid uid fl titles ctx db
    exact ⟨reportStatus_update rid .titlesGenerated _
      (exists_id_save_context rid rid ctx _ (exists_id_create rid uid fl db)),
      rfl⟩
  · intro f rid uid fl titles details summary db
    cases f with
    | genTitles => exact reportStatus_failRun rid _ _ (exists_id_create rid uid fl db)
    | saveTitles => exact reportStatus_failRun rid _ _ (exists_id_create rid uid fl db)
    | genDetails => exact reportStatus_failRun rid _ _ (exists_id_create rid uid fl db)
    | saveDetails => exact reportStatus_failRun rid _ _ (exists_id_create rid uid fl db)
    | genSummary => exact reportStatus_failRun rid _ _ (exists_id_create rid uid fl db)
    | saveSummary => exact reportStatus_failRun rid _ _ (exists_id_create rid uid fl db)
    | setStatus => exact reportStatus_failRun rid _ _ (exists_id_create rid uid fl db)
    | incrCount =>
      exact reportStatus_failRun rid _ _
        (exists_id_update rid rid .completed _ (exists_id_create rid uid fl db))
  · intro rid uid fl titles details summary db
    refine ⟨reportStatus_update rid .completed _ (exists_id_create rid uid fl db),
      rfl, ?_⟩
    show Status.titlesGenerated ∉ [Status.processing, Status.completed]
    decide
  · intro f complete o rid uid grok db report selected hrep hsel hne
    have hne2 : selected.isEmpty = false := by simp [List.isEmpty_iff, hne]
    have hex : ∃ r ∈ db.reports, r.id = rid := by
      have hp := List.find?_some hrep
      simp only [decide_eq_true_eq] at hp
      exact ⟨report, List.mem_of_find?_eq_some hrep, hp.1⟩
    have hlen : (generate_selected_outcomes_only complete o db rid uid
        selected report.fields.vendor_name report.fields.vendor_url
        report.fields.vendor_services report.fields.target_customer_name
        report.fields.target_customer_url report.fields.role_names
        report.fields.linkedin_urls report.fields.role_names
        report.fields.role_context report.fields.additional_context
        [] [] grok).outcomes.length = selected.length := by
      simp [generate_selected_outcomes_only, detailFanOutSelected, llm_call]
    have hbuild : buildOutcomesData selected
        (generate_selected_outcomes_only complete o db rid uid selected
          report.fields.vendor_name report.fields.vendor_url
          report.fields.vendor_services report.fields.target_customer_name
          report.fields.target_customer_url report.fields.role_names
          report.fields.linkedin_urls report.fields.role_names
          report.fields.role_context report.fields.additional_context
          [] [] grok).outcomes
        = some ((selected.zip (generate_selected_outcomes_only complete o db
            rid uid selected report.fields.vendor_name
            report.fields.vendor_url report.fields.vendor_services
            report.fields.target_customer_name
            report.fields.target_customer_url report.fields.role_names
            report.fields.linkedin_urls report.fields.role_names
            report.fields.role_context report.fields.additional_context
            [] [] grok).outcomes).map
          (fun p : TitleRow × String =>
            (⟨p.1.title_index, p.1.title, p.2⟩ : OutcomeInput))) := by
      simp [buildOutcomesData, hlen]
    cases f with
    | genOutcomes =>
      simp only [phase2Run, hrep, hsel, hne2, Bool.false_eq_true, if_false,
        reduceCtorEq, reduceIte, hbuild]
      exact (reportStatus_failRun rid db [] hex).1
    | saveDetails =>
      simp only [phase2Run, hrep, hsel, hne2, Bool.false_eq_true, if_false,
        reduceCtorEq, reduceIte, hbuild, Option.some.injEq]
      exact (reportStatus_failRun rid db [] hex).1
    | saveSummary =>
      simp only [phase2Run, hrep, hsel, hne2, Bool.false_eq_true, if_false,
        reduceCtorEq, reduceIte, hbuild, Option.some.injEq]
      exact (reportStatus_failRun rid _ [] hex).1
    | setStatus =>
      simp only [phase2Run, hrep, hsel, hne2, Bool.false_eq_true, if_false,
        reduceCtorEq, reduceIte, hbuild, Option.some.injEq]
      exact (reportStatus_failRun rid _ [] hex).1
  · intro complete o rid uid grok db report selected hrep hsel hne
    have hne2 : selected.isEmpty = false := by simp [List.isEmpty_iff, hne]
    have hex : ∃ r ∈ db.reports, r.id = rid := by
      have hp := List.find?_some hrep
      simp only [decide_eq_true_eq] at hp
      exact ⟨report, List.mem_of_find?_eq_some hrep, hp.1⟩
    have hlen : (generate_selected_outcomes_only complete o db rid uid
        selected report.fields.vendor_name report.fields.vendor_url
        report.fields.vendor_services report.fields.target_customer_name
        report.fields.target_customer_url report.fields.role_names
        report.fields.linkedin_urls report.fields.role_names
        report.fields.role_context report.fields.additional_context
        [] [] grok).outcomes.length = selected.length := by
      simp [generate_selected_outcomes_only, detailFanOutSelected, llm_call]
    have hbuild : buildOutcomesData selected
        (generate_selected_outcomes_only complete o db rid uid selected
          report.fields.vendor_name report.fields.vendor_url
          report.fields.vendor_services report.fields.target_customer_name
          report.fields.target_customer_url report.fields.role_names
          report.fields.linkedin_urls report.fields.role_names
          report.fields.role_context report.fields.additional_context
          [] [] grok).outcomes
        = some ((selected.zip (generate_selected_outcomes_only complete o db
            rid uid selected report.fields.vendor_name
            report.fields.vendor_url report.fields.vendor_services
            report.fields.target_customer_name
            report.fields.target_customer_url report.fields.role_names
            report.fields.linkedin_urls report.fields.role_names
            report.fields.role_context report.fields.additional_context
            [] [] grok).outcomes).map
          (fun p : TitleRow × String =>
            (⟨p.1.title_index, p.1.title, p.2⟩ : OutcomeInput))) := by
      simp [buildOutcomesData, hlen]
    constructor
    · simp only [phase2Run, hrep, hsel, hne2, Bool.false_eq_true, if_false,
        reduceCtorEq, reduceIte, hbuild]
      exact reportStatus_update rid .completed _ hex
    · simp only [phase2Run, hrep, hsel, hne2, Bool.false_eq_true, if_false,
        reduceCtorEq, reduceIte, hbuild]

/-- C3 witness: the amended state machine applied at a concrete store — a
failing save step in Phase 2 drives the report to `failed`. -/
theorem C3_amended_status_machine_witness :
    reportStatus "r1" ((phase2Run (some .saveDetails) (fun _ => "d")
        C6oracles "r1" "u1" none C9db).db) = some Status.failed :=
  C3_amended_status_machine.2.2.2.2.1 .saveDetails (fun _ => "d") C6oracles
    "r1" "u1" none C9db
    ⟨"r1", "u1", sampleFields, .titlesGenerated, some ⟨"CTX"⟩⟩
    [⟨"r1", 0, "Reduce onboarding time", true⟩,
     ⟨"r1", 2, "Improve retention", true⟩]
    rfl rfl (by decide)

/-- Soundness of the naive search: a returned index is an occurrence. -/
theorem findSub_isPrefix (m : Str) :
    ∀ (s : Str) (i : Nat), findSub m s = some i →
      m.isPrefixOf (s.drop i) = true := by
  intro s
  induction s with
  | nil =>
    intro i h
    by_cases hm : m.isEmpty
    · simp only [findSub, hm, if_true, Option.some.injEq] at h
      subst h
      rw [List.isEmpty_iff] at hm
      subst hm
      rfl
    · simp [findSub, hm] at h
  | cons c cs ih =>
    intro i h
    by_cases hp : m.isPrefixOf (c :: cs)
    · simp only [findSub, hp, if_true, Option.some.injEq] at h
      subst h
      exact hp
    · simp only [findSub, hp, if_false, Bool.false_eq_true,
        Option.map_eq_some'] at h
      obtain ⟨j, hj, hij⟩ := h
      subst hij
      exact ih j hj

/-- Minimality of the naive search: any occurrence bounds the returned
index from above (in particular, an occurrence forces success). -/
theorem findSub_min (m : Str) :
    ∀ (s : Str) (j : Nat), m.isPrefixOf (s.drop j) = true →
      ∃ i, i ≤ j ∧ findSub m s = some i := by
  intro s
  induction s with
  | nil =>
    intro j h
    rw [List.drop_nil] at h
    cases m with
    | nil => exact ⟨0, Nat.zero_le j, rfl⟩
    | cons d ds => simp [List.isPrefixOf] at h
  | cons c cs ih =>
    intro j h
    by_cases hp : m.isPrefixOf (c :: cs)
    · exact ⟨0, Nat.zero_le j, by simp [findSub, hp]⟩
    · cases j with
      | zero => exact absurd h hp
      | succ j =>
        obtain ⟨i, hij, hfind⟩ := ih j h
        refine ⟨i + 1, Nat.succ_le_succ hij, ?_⟩
        simp [findSub, hp, hfind]

/-- Completeness: a failed search means no occurrence anywhere. -/
theorem findSub_none (m s : Str) (h : findSub m s = none) (j : Nat) :
    ¬ m.isPrefixOf (s.drop j) = true := by
  intro hocc
  obtain ⟨i, _, hfind⟩ := findSub_min m s j hocc
  rw [h] at hfind
  cases hfind

/-- An occurrence is a three-way decomposition of the string. -/
theorem decomp_of_prefix (m s : Str) (i : Nat)
    (h : m.isPrefixOf (s.drop i) = true) :
    ∃ t, s = s.take i ++ m ++ t := by
  obtain ⟨t, ht⟩ := List.isPrefixOf_iff_prefix.mp h
  refine ⟨t, ?_⟩
  rw [List.append_assoc, ht, List.take_append_drop]

/-- A three-way decomposition is an occurrence, at the prefix's length. -/
theorem prefix_at_decomp (m a b : Str) :
    m.isPrefixOf ((a ++ m ++ b).drop a.length) = true := by
  rw [List.append_assoc, List.drop_left]
  exact List.isPrefixOf_iff_prefix.mpr ⟨b, rfl⟩

/-- A non-empty pattern only occurs at positions within the string. -/
theorem occ_le_length (m s : Str) (i : Nat) (hm : m ≠ [])
    (h : m.isPrefixOf (s.drop i) = true) : i ≤ s.length := by
  by_contra hgt
  push_neg at hgt
  rw [List.drop_eq_nil_of_le (Nat.le_of_lt hgt)] at h
  cases m with
  | nil => exact hm rfl
  | cons d ds => simp [List.isPrefixOf] at h

/-- With exactly one occurrence, any two occurrence positions agree. -/
theorem occ_unique (m s : Str) (hm : m ≠ []) (hcount : countOccs m s = 1)
    (i j : Nat) (hi : m.isPrefixOf (s.drop i) = true)
    (hj : m.isPrefixOf (s.drop j) = true) : i = j := by
  obtain ⟨a, ha⟩ := List.length_eq_one.mp hcount
  have hmi : i ∈ (List.range (s.length + 1)).filter
      (fun k => m.isPrefixOf (s.drop k)) :=
    List.mem_filter.mpr
      ⟨List.mem_range.mpr (Nat.lt_succ_of_le (occ_le_length m s i hm hi)), hi⟩
  have hmj : j ∈ (List.range (s.length + 1)).filter
      (fun k => m.isPrefixOf (s.drop k)) :=
    List.mem_filter.mpr
      ⟨List.mem_range.mpr (Nat.lt_succ_of_le (occ_le_length m s j hm hj)), hj⟩
  rw [ha] at hmi hmj
  rw [List.mem_singleton.mp hmi, List.mem_singleton.mp hmj]

/-- `str.split(marker)` of a text with exactly one marker occurrence is the
two-part list around it. -/
theorem pySplit_of_unique (s a b : Str) (hs : s = a ++ marker ++ b)
    (hcount : countOccs marker s = 1) : pySplit marker s = [a, b] := by
  have hm : marker ≠ [] := by decide
  have hmlen : 0 < marker.length := by decide
  have hoccA : marker.isPrefixOf (s.drop a.length) = true := by
    rw [hs]
    exact prefix_at_decomp marker a b
  obtain ⟨i, hile, hfind⟩ := findSub_min marker s a.length hoccA
  have hocci := findSub_isPrefix marker s i hfind
  have hia : i = a.length := occ_unique marker s hm hcount i a.length hocci hoccA
  rw [hia] at hfind
  have hnone : findSub marker b = none := by
    cases hfb : findSub marker b with
    | none => rfl
    | some j =>
      exfalso
      have hoccb := findSub_isPrefix marker b j hfb
      have hoccs : marker.isPrefixOf (s.drop (a.length + marker.length + j)) = true := by
        rw [hs]
        have hd : (a ++ marker ++ b).drop (a.length + marker.length + j)
            = b.drop j := by
          rw [show a.length + marker.length + j
              = (a ++ marker).length + j from by simp [List.length_append]]
          exact List.drop_append j
        rw [hd]
        exact hoccb
      have := occ_unique marker s hm hcount (a.length + marker.length + j)
        a.length hoccs hoccA
      omega
  have htake : s.take a.length = a := by
    rw [hs, List.append_assoc]
    exact List.take_left a (marker ++ b)
  have hdrop : s.drop (a.length + marker.length) = b := by
    rw [hs, show a.length + marker.length = (a ++ marker).length from
      (List.length_append a marker).symm]
    exact List.drop_left (a ++ marker) b
  have hslen : s.length ≠ 0 := by
    rw [hs, List.length_append, List.length_append]
    omega
  obtain ⟨k, hk⟩ := Nat.exists_eq_succ_of_ne_zero hslen
  rw [pySplit, hk]
  simp only [pySplitF, hfind, htake, hdrop, hnone]

/-- `str.split(marker)` of a text with no marker occurrence is the whole
text as a single part. -/
theorem pySplit_no_marker (s : Str) (h : ¬ ∃ a b, s = a ++ marker ++ b) :
    pySplit marker s = [s] := by
  have hfind : findSub marker s = none := by
    cases hf : findSub marker s with
    | none => rfl
    | some i =>
      exfalso
      obtain ⟨t, ht⟩ := decomp_of_prefix marker s i (findSub_isPrefix marker s i hf)
      exact h ⟨s.take i, t, ht⟩
  rw [pySplit]
  simp only [pySplitF, hfind]

/-- The executable occurrence count is zero exactly when no three-way
decomposition around the marker exists. -/
theorem countOccs_zero_iff (s : Str) :
    countOccs marker s = 0 ↔ ¬ ∃ a b, s = a ++ marker ++ b := by
  have hm : marker ≠ [] := by decide
  constructor
  · rintro h0 ⟨a, b, hs⟩
    have hocc : marker.isPrefixOf (s.drop a.length) = true := by
      rw [hs]
      exact prefix_at_decomp marker a b
    have hmem : a.length ∈ (List.range (s.length + 1)).filter
        (fun k => marker.isPrefixOf (s.drop k)) :=
      List.mem_filter.mpr
        ⟨List.mem_range.mpr
          (Nat.lt_succ_of_le (occ_le_length marker s a.length hm hocc)), hocc⟩
    rw [countOccs, List.length_eq_zero] at h0
    rw [h0] at hmem
    cases hmem
  · intro h
    rw [countOccs, List.length_eq_zero, List.filter_eq_nil_iff]
    intro k _ hocc
    obtain ⟨t, ht⟩ := decomp_of_prefix marker s k hocc
    exact h ⟨s.take k, t, ht⟩

/-- C5 counterexample.  Against the claim as stated: (a) a combined text in
which the marker occurs exactly once but first (nothing before it) yields an
*empty* summary prefix, not a non-empty one; (b) the takeaways are the
whitespace-*stripped* suffix after the marker, not the exact suffix
(`parts[1].strip()` in the source); (c) with the marker absent, the summary
is the whitespace-stripped text, not the whole text. -/
theorem C5_counterexample :
    (countOccs marker (marker ++ S "\nTake") = 1
      ∧ (saveSummarySplit (marker ++ S "\nTake")).1 = [])
    ∧ ((saveSummarySplit (S "Intro\n" ++ marker ++ S "\nTake")).2 = S "Take"
      ∧ S "Take" ≠ S "\nTake")
    ∧ (countOccs marker (S " hello ") = 0
      ∧ saveSummarySplit (S " hello ") = (S "hello", [])
      ∧ S "hello" ≠ S " hello ") := by
  decide

/-- C5 amended.  Summary split determinism, as the code behaves: for every
combined summary text in which the fixed marker occurs exactly once
(`countOccs marker s = 1` — equivalently, by the third conjunct, the text
decomposes uniquely around the marker), the split yields as summary the
prefix before the marker with every line-start summary heading
(`## **Summary & Strategic Integration of All <n> Outcomes**` plus trailing
whitespace) removed and surrounding whitespace stripped — a prefix that may
be empty, e.g. when the text starts with the marker — and as takeaways the
whitespace-stripped (not byte-exact) suffix after the marker.  When the
marker is absent, takeaways is the empty string and the summary is the
whole text after the same heading removal and whitespace strip.  The
operation is a total function: it never fails. -/
theorem C5_amended_summary_split (s : Str) :
    (∀ a b, s = a ++ marker ++ b → countOccs marker s = 1 →
      saveSummarySplit s = (pyStrip (stripHeading a), pyStrip b))
    ∧ (countOccs marker s = 0 →
        saveSummarySplit s = (pyStrip (stripHeading s), []))
    ∧ (countOccs marker s = 0 ↔ ¬ ∃ a b, s = a ++ marker ++ b) := by
  refine ⟨fun a b hs hc => ?_, fun h0 => ?_, countOccs_zero_iff s⟩
  · unfold saveSummarySplit
    rw [pySplit_of_unique s a b hs hc]
  · unfold saveSummarySplit
    rw [pySplit_no_marker s ((countOccs_zero_iff s).mp h0)]

/-- C5 witness: the amended theorem applied to a concrete once-marked
text. -/
theorem C5_amended_summary_split_witness :
    saveSummarySplit (S "Intro\n" ++ marker ++ S "\nTA")
      = (pyStrip (stripHeading (S "Intro\n")), pyStrip (S "\nTA")) :=
  (C5_amended_summary_split (S "Intro\n" ++ marker ++ S "\nTA")).1
    (S "Intro\n") (S "\nTA") rfl (by decide)

end POV
